import Mathlib

/-!
# Air Defense Simulator — verification of the simulation core

Shallow embedding of the game-loop core of `src/main.py` (class `AirDefenseGame`
and the entity classes `Target`, `Missile`, `Explosion`, `SupportCar`).

Modelling conventions:
* Python floats are modelled as real numbers (`ℝ`); the constant folding of the
  source (`SCALE = 1.5`, `int(...)` truncations of exact values, `280 * 1.1`)
  is carried out exactly.
* Python object references: `Missile.target` and `selected_target` hold
  references to `Target` objects that are mutated in place and shared with the
  `targets` list.  We model the heap of `Target` objects as an `arena` list
  that only ever grows; references are indices into the arena, and the game's
  `targets` list is a list of such indices.  Purging a target removes its index
  from `targets` but leaves the (dead) object in the arena, exactly as in
  Python where a dangling reference keeps the object observable.
* `pygame.Vector2.distance_to(a) < r` comparisons are modelled as squared
  comparisons `distSq < r * r`, which is equivalent for the non-negative radii
  used by the source (strict monotonicity of squaring on non-negatives).
* `play_sound(key)` is modelled as appending `key` to an `events` log.
* Rendering-only data (colors) is omitted; the `heading` field (used only for
  drawing) is kept because `Target.update` recomputes it each tick.
-/

noncomputable section

/-- 2-D vector, mirroring `pygame.Vector2` with exact real coordinates. -/
structure Vec2 where
  x : ℝ
  y : ℝ

instance : Add Vec2 := ⟨fun a b => ⟨a.x + b.x, a.y + b.y⟩⟩

instance : Sub Vec2 := ⟨fun a b => ⟨a.x - b.x, a.y - b.y⟩⟩

/-- Scalar multiple `v * c`, as in pygame's `Vector2 * float`. -/
instance : HMul Vec2 ℝ Vec2 := ⟨fun v c => ⟨v.x * c, v.y * c⟩⟩

/-- `Vector2.length_squared()`. -/
def Vec2.lengthSq (v : Vec2) : ℝ := v.x * v.x + v.y * v.y

/-- `Vector2.normalize()`: divide both components by the Euclidean length. -/
def Vec2.normalize (v : Vec2) : Vec2 :=
  ⟨v.x / Real.sqrt v.lengthSq, v.y / Real.sqrt v.lengthSq⟩

/-- `a.lerp(b, t) = a + (b - a) * t`. -/
def Vec2.lerp (a b : Vec2) (t : ℝ) : Vec2 := a + (b - a) * t

/-- Squared Euclidean distance; `p.distance_to(q) < r` is modelled as
`Vec2.distSq p q < r * r`. -/
def Vec2.distSq (p q : Vec2) : ℝ := (p - q).lengthSq

/-- `Vector2.rotate(angle)` with the angle in degrees. -/
def Vec2.rotate (v : Vec2) (angle : ℝ) : Vec2 :=
  ⟨v.x * Real.cos (angle * Real.pi / 180) - v.y * Real.sin (angle * Real.pi / 180),
   v.x * Real.sin (angle * Real.pi / 180) + v.y * Real.cos (angle * Real.pi / 180)⟩

/-- `math.degrees(math.atan2(v.y, v.x))`: `atan2` is the argument of the
complex number `x + y*i`. -/
def headingOf (v : Vec2) : ℝ := Complex.arg ⟨v.x, v.y⟩ * 180 / Real.pi

/-! ## Constants of `src/main.py` (with `SCALE = 1.5` folded in) -/

/-- `BASE_POSITION = Vector2(SCREEN_WIDTH // 2, SCREEN_HEIGHT // 2)` =
`(1440 // 2, 1080 // 2)`. -/
def BASE_POSITION : Vec2 := ⟨720, 540⟩

/-- `BASE_RADIUS = int(40 * SCALE)`. -/
def BASE_RADIUS : ℝ := 60

/-- `RADAR_RADIUS = int(260 * SCALE)`. -/
def RADAR_RADIUS : ℝ := 390

/-- `TARGET_SPAWN_INTERVAL`. -/
def TARGET_SPAWN_INTERVAL : ℝ := 2.2

/-- `MAX_TARGETS`. -/
def MAX_TARGETS : ℕ := 8

/-- `MISSILE_SPEED = 280 * 1.1`. -/
def MISSILE_SPEED : ℝ := 280 * 1.1

/-- `MISSILE_LOCK_STRENGTH`. -/
def MISSILE_LOCK_STRENGTH : ℝ := 0.12

/-- `LEVEL_TARGET_COUNT`. -/
def LEVEL_TARGET_COUNT : ℕ := 20

/-- `LEVEL_COMPLETE_PAUSE`. -/
def LEVEL_COMPLETE_PAUSE : ℝ := 3.0

/-- Projectile hit radius `12 * SCALE` from `update_entities`. -/
def HIT_RADIUS : ℝ := 12 * 1.5

/-- Escape radius `RADAR_RADIUS + 140 * SCALE` from `update_entities`. -/
def ESCAPE_RADIUS : ℝ := RADAR_RADIUS + 140 * 1.5

/-- Spawn distance `RADAR_RADIUS + 90 * SCALE` from `spawn_target`. -/
def SPAWN_DISTANCE : ℝ := RADAR_RADIUS + 90 * 1.5

/-- The two keys of the `TARGET_TYPES` table. -/
inductive TType where
  | drone
  | missile
deriving DecidableEq

/-- `TARGET_TYPES[t]["speed"]`, lower bound. -/
def typeSpeedLo : TType → ℝ
  | .drone => 70
  | .missile => 120

/-- `TARGET_TYPES[t]["speed"]`, upper bound. -/
def typeSpeedHi : TType → ℝ
  | .drone => 120
  | .missile => 180

/-- `TARGET_TYPES[t]["score"]`. -/
def typeScore : TType → ℤ
  | .drone => 75
  | .missile => 140

/-! ## Entity classes -/

/-- Class `Target` (the `color` entry of its type is rendering-only and
omitted). -/
structure Target where
  position : Vec2
  velocity : Vec2
  target_type : TType
  heading : ℝ
  alive : Bool

/-- Class `Missile`; `target` is the reference to the chased `Target`,
modelled as an arena index. -/
structure Missile where
  position : Vec2
  velocity : Vec2
  source_index : ℕ
  target : Option ℕ
  active : Bool

/-- Class `Explosion` (visual only; carried because the core owns the list). -/
structure Explosion where
  position : Vec2
  timer : ℝ
  lifetime : ℝ

/-- Class `SupportCar`. -/
structure SupportCar where
  position : Vec2
  index : ℕ
  cool_down : ℝ

/-- `Target.update`: move if alive, recompute the heading from the velocity. -/
def Target.update (dt : ℝ) (t : Target) : Target :=
  if t.alive = false then t
  else { t with position := t.position + t.velocity * dt,
                heading := headingOf t.velocity }

/-- `Missile.update`.  The arena resolves the target reference; a missing
arena entry behaves like an absent target (unreachable for states built by the
game operations, where every stored index is a valid arena index). -/
def Missile.update (arena : List Target) (dt : ℝ) (m : Missile) : Missile :=
  if m.active = false then m
  else
    let coast : Missile :=
      { m with position := m.position + m.velocity * dt, active := false }
    match m.target with
    | none => coast
    | some j =>
      match arena[j]? with
      | none => coast
      | some t =>
        if t.alive = false then coast
        else
          let desired0 := t.position - m.position
          let m1 :=
            if 0 < desired0.lengthSq then
              let desired := desired0.normalize
              let current :=
                if 0 < m.velocity.lengthSq then m.velocity.normalize else desired
              let nd0 := current.lerp desired MISSILE_LOCK_STRENGTH
              let nd := if 0 < nd0.lengthSq then nd0.normalize else nd0
              { m with velocity := nd * MISSILE_SPEED }
            else m
          { m1 with position := m1.position + m1.velocity * dt }

/-! ## Session state -/

/-- The mutable state of `AirDefenseGame` that the simulation core touches.
`arena` is the heap of all `Target` objects created so far (see the module
comment); `targets` is `self.targets` as a list of arena indices. -/
structure GameState where
  arena : List Target
  targets : List ℕ
  missiles : List Missile
  explosions : List Explosion
  cars : List SupportCar
  spawn_timer : ℝ
  selected_target : Option ℕ
  score : ℤ
  lives : ℤ
  elapsed : ℝ
  game_over : Bool
  level : ℕ
  targets_destroyed : ℕ
  enemy_speed_multiplier : ℝ
  score_multiplier : ℤ
  level_complete : Bool
  level_transition_timer : ℝ
  lock_timer : ℝ
  radar_damage_timer : ℝ
  events : List String

/-- Resolve an arena index to the `alive` flag of the referenced target
(`false` for a missing entry, which the game operations never produce). -/
def aliveAt (arena : List Target) (j : ℕ) : Bool :=
  match arena[j]? with
  | some t => t.alive
  | none => false

/-- The random draws consumed by one `update` call: the draws of
`spawn_target` plus the subsequent `spawn_timer` reset draw. -/
structure SpawnRand where
  ttype : TType
  speedSample : ℝ
  angle : ℝ
  roll : ℝ
  jitterX : ℝ
  jitterY : ℝ
  driftDelta : ℝ
  nextSpawn : ℝ

/-- `AirDefenseGame.apply_level_parameters`. -/
def GameState.apply_level_parameters (s : GameState) : GameState :=
  { s with enemy_speed_multiplier := 1.0 + 0.05 * ((s.level : ℝ) - 1),
           score_multiplier := 2 ^ (s.level - 1) }

/-- `AirDefenseGame.start_level_complete`: freeze every listed target and
every missile, clear selection and explosions, start the transition timer. -/
def GameState.start_level_complete (s : GameState) : GameState :=
  { s with level_complete := true,
           level_transition_timer := LEVEL_COMPLETE_PAUSE,
           selected_target := none,
           lock_timer := 0,
           arena := s.targets.foldl (fun a j =>
             match a[j]? with
             | some t => a.set j { t with alive := false }
             | none => a) s.arena,
           missiles := s.missiles.map (fun m => { m with active := false }),
           explosions := [] }

/-- `AirDefenseGame.advance_level`. -/
def GameState.advance_level (s : GameState) : GameState :=
  GameState.apply_level_parameters
    { s with level := s.level + 1,
             level_complete := false,
             level_transition_timer := 0,
             targets_destroyed := 0,
             spawn_timer := TARGET_SPAWN_INTERVAL,
             targets := [],
             missiles := [],
             explosions := [],
             selected_target := none,
             lock_timer := 0 }

/-- The spawn position of `spawn_target`:
`BASE_POSITION + Vector2(spawn_distance, 0).rotate(angle)`. -/
def spawn_posOf (r : SpawnRand) : Vec2 :=
  BASE_POSITION + (Vec2.mk SPAWN_DISTANCE 0).rotate r.angle

/-- The destination point of `spawn_target`: attack run (probability 0.65) or
flyby. -/
def destinationOf (r : SpawnRand) : Vec2 :=
  if r.roll < 0.65 then BASE_POSITION + Vec2.mk r.jitterX r.jitterY
  else BASE_POSITION + (Vec2.mk RADAR_RADIUS 0).rotate (r.angle + r.driftDelta)

/-- The (guarded) direction of `spawn_target`: `destination - spawn_pos`, with
the degenerate zero vector replaced by `Vector2(1, 0)`. -/
def spawnDirOf (r : SpawnRand) : Vec2 :=
  if (destinationOf r - spawn_posOf r).lengthSq = 0 then Vec2.mk 1 0
  else destinationOf r - spawn_posOf r

/-- `AirDefenseGame.spawn_target`, with the random draws passed explicitly. -/
def GameState.spawn_target (r : SpawnRand) (s : GameState) : GameState :=
  if MAX_TARGETS ≤ s.targets.length then s
  else
    let base_speed := r.speedSample * 0.8
    let speed := base_speed * s.enemy_speed_multiplier
    let velocity := (spawnDirOf r).normalize * speed
    { s with
      arena := s.arena ++ [⟨spawn_posOf r, velocity, r.ttype, headingOf velocity, true⟩],
      targets := s.targets ++ [s.arena.length] }

/-- `AirDefenseGame.select_target`: nearest live target within 20 pixels of
the click (distances compared squared; `closest_distance` starts at 9999). -/
def GameState.select_target (p : Vec2) (s : GameState) : GameState :=
  let best := s.targets.foldl
    (fun (acc : Option ℕ × ℝ) j =>
      match s.arena[j]? with
      | none => acc
      | some t =>
        if t.alive = false then acc
        else
          let d := Vec2.distSq p t.position
          if d < 20 * 20 ∧ d < acc.2 then (some j, d) else acc)
    (none, 9999 * 9999)
  match best.1 with
  | some j => { s with selected_target := some j, lock_timer := 0 }
  | none => s

/-- `AirDefenseGame.command_car` (the fire command for key `car_index`). -/
def GameState.command_car (car_index : ℕ) (s : GameState) : GameState :=
  if s.level_complete = true then s
  else
    match s.selected_target with
    | none => s
    | some j =>
      match s.arena[j]? with
      | none => s
      | some t =>
        if t.alive = false then s
        else if car_index < 1 ∨ s.cars.length < car_index then s
        else
          match s.cars[car_index - 1]? with
          | none => s
          | some car =>
            if 0 < car.cool_down then s
            else
              let dir0 := t.position - car.position
              let dir := if dir0.lengthSq = 0 then Vec2.mk 1 0 else dir0
              let velocity := dir.normalize * MISSILE_SPEED
              { s with
                missiles := s.missiles ++
                  [⟨car.position, velocity, car_index, some j, true⟩],
                cars := s.cars.set (car_index - 1) { car with cool_down := 1.8 },
                events := s.events ++ ["shot"] }

/-! ## The phases of `update_entities`, in source order -/

/-- Phase 1: `for target in self.targets: target.update(dt)`. -/
def updateTargetsPhase (dt : ℝ) (s : GameState) : GameState :=
  { s with arena := s.targets.foldl (fun a j =>
      match a[j]? with
      | some t => a.set j (Target.update dt t)
      | none => a) s.arena }

/-- Phase 2: `for missile in self.missiles: missile.update(dt)`. -/
def updateMissilesPhase (dt : ℝ) (s : GameState) : GameState :=
  { s with missiles := s.missiles.map (Missile.update s.arena dt) }

/-- Phase 3: `car.cool_down = max(0.0, car.cool_down - dt)`. -/
def cooldownPhase (dt : ℝ) (s : GameState) : GameState :=
  { s with cars := s.cars.map (fun c => { c with cool_down := max 0 (c.cool_down - dt) }) }

/-- One iteration of the projectile-impact loop, for the missile at list
position `i`.  The iteration is by position because `start_level_complete`
(triggered mid-loop by the 20th kill) deactivates the missiles that the loop
has not reached yet. -/
def missileHitStep (s : GameState) (i : ℕ) : GameState :=
  match s.missiles[i]? with
  | none => s
  | some m =>
    if m.active = false then s
    else
      match m.target with
      | none => s
      | some j =>
        match s.arena[j]? with
        | none => s
        | some t =>
          if t.alive = true ∧ Vec2.distSq m.position t.position < HIT_RADIUS * HIT_RADIUS then
            let s1 :=
              { s with
                missiles := s.missiles.set i { m with active := false },
                arena := s.arena.set j { t with alive := false },
                explosions := s.explosions ++ [⟨t.position, 0, 0.6⟩],
                events := s.events ++ ["explosion"],
                score := s.score + typeScore t.target_type * s.score_multiplier }
            if s1.level_complete = false then
              let s2 := { s1 with targets_destroyed := s1.targets_destroyed + 1 }
              if LEVEL_TARGET_COUNT ≤ s2.targets_destroyed then
                GameState.start_level_complete s2
              else s2
            else s1
          else s

/-- Phase 4: the projectile-impact loop over all missile positions. -/
def hitPhase (s : GameState) : GameState :=
  (List.range s.missiles.length).foldl missileHitStep s

/-- One iteration of the base-collision loop for the listed target `j`.
Note: the source checks only the distance, not the `alive` flag. -/
def baseHitStep (s : GameState) (j : ℕ) : GameState :=
  match s.arena[j]? with
  | none => s
  | some t =>
    if Vec2.distSq t.position BASE_POSITION < BASE_RADIUS * BASE_RADIUS then
      let s1 :=
        { s with
          arena := s.arena.set j { t with alive := false },
          lives := s.lives - 1,
          radar_damage_timer := 0.5,
          events := s.events ++ ["damage"] }
      if s1.lives ≤ 0 ∧ s1.game_over = false then
        { s1 with game_over := true, events := s1.events ++ ["game_over"] }
      else s1
    else s

/-- Phase 5: the base-collision loop over the listed targets. -/
def basePhase (s : GameState) : GameState :=
  s.targets.foldl baseHitStep s

/-- One iteration of the escape-cleanup loop for the listed target `j`. -/
def escapeStep (s : GameState) (j : ℕ) : GameState :=
  match s.arena[j]? with
  | none => s
  | some t =>
    if ESCAPE_RADIUS * ESCAPE_RADIUS < Vec2.distSq t.position BASE_POSITION then
      { s with arena := s.arena.set j { t with alive := false } }
    else s

/-- Phase 6: the escape-cleanup loop. -/
def escapePhase (s : GameState) : GameState :=
  s.targets.foldl escapeStep s

/-- Phase 7: clear the selection if the chosen target is no longer alive. -/
def clearSelPhase (s : GameState) : GameState :=
  { s with selected_target :=
      match s.selected_target with
      | none => none
      | some j => if aliveAt s.arena j = true then some j else none }

/-- Phase 8: purge dead targets and inactive missiles (filter-retain). -/
def purgePhase (s : GameState) : GameState :=
  { s with targets := s.targets.filter (fun j => aliveAt s.arena j),
           missiles := s.missiles.filter (fun m => m.active) }

/-- `AirDefenseGame.update_entities`. -/
def GameState.update_entities (dt : ℝ) (s : GameState) : GameState :=
  purgePhase (clearSelPhase (escapePhase (basePhase (hitPhase
    (cooldownPhase dt (updateMissilesPhase dt (updateTargetsPhase dt s)))))))

/-- `self.selected_target and self.selected_target.alive` in `update`. -/
def selAlive (s : GameState) : Bool :=
  match s.selected_target with
  | some j => aliveAt s.arena j
  | none => false

/-- `AirDefenseGame.update`, with the spawn randomness passed explicitly. -/
def GameState.update (dt : ℝ) (r : SpawnRand) (s : GameState) : GameState :=
  let sA := { s with radar_damage_timer := max 0 (s.radar_damage_timer - dt) }
  let sB := { sA with explosions :=
      ((sA.explosions.map (fun e => { e with timer := e.timer + dt })).filter
        (fun e => decide (e.timer < e.lifetime))) }
  if sB.game_over = true then { sB with lock_timer := 0 }
  else
    let sC :=
      if selAlive sB = true then { sB with lock_timer := sB.lock_timer + dt }
      else { sB with lock_timer := 0 }
    if sC.level_complete = true then
      let sD := { sC with level_transition_timer := sC.level_transition_timer - dt }
      if sD.level_transition_timer ≤ (0 : ℝ) then GameState.advance_level sD else sD
    else
      let sE := { sC with elapsed := sC.elapsed + dt, spawn_timer := sC.spawn_timer - dt }
      let sF : GameState :=
        if sE.spawn_timer ≤ (0 : ℝ) then
          { GameState.spawn_target r sE with spawn_timer := r.nextSpawn }
        else sE
      GameState.update_entities dt sF

/-! ## Derived observations and shared concrete inputs -/

/-- A junk default `Target`, used only as the `List.getD` fallback. -/
def noTarget : Target := ⟨⟨0, 0⟩, ⟨0, 0⟩, TType.drone, 0, false⟩

/-- "The selection is empty or points at a live target" as a Boolean
observation of a state. -/
def selOkB (s : GameState) : Bool :=
  match s.selected_target with
  | none => true
  | some j => aliveAt s.arena j

/-- Whether the listed target `j` is within the base radius (the trigger of
the base-collision loop, which does not consult `alive`). -/
def hitBase (arena : List Target) (j : ℕ) : Bool :=
  match arena[j]? with
  | some t => decide (Vec2.distSq t.position BASE_POSITION < BASE_RADIUS * BASE_RADIUS)
  | none => false

/-- One frame of the firing experiment: advance the simulation by one
1/60-second tick, then attempt to fire launcher `i`. -/
def fireEveryTick (i : ℕ) (st : GameState) : GameState :=
  GameState.command_car i (GameState.update_entities (1 / 60) st)

/-- A fresh level-1 session with no entities (the scalar fields are the
values `reset` assigns). -/
def baseState : GameState :=
  { arena := [], targets := [], missiles := [], explosions := [], cars := [],
    spawn_timer := TARGET_SPAWN_INTERVAL, selected_target := none,
    score := 0, lives := 5, elapsed := 0, game_over := false, level := 1,
    targets_destroyed := 0, enemy_speed_multiplier := 1, score_multiplier := 1,
    level_complete := false, level_transition_timer := 0, lock_timer := 0,
    radar_damage_timer := 0, events := [] }

/-! ## Small vector facts used throughout -/

theorem Vec2.eta (v : Vec2) : Vec2.mk v.x v.y = v := rfl

theorem Vec2.zero_hmul (c : ℝ) : (Vec2.mk 0 0) * c = Vec2.mk 0 0 := by
  show Vec2.mk (0 * c) (0 * c) = Vec2.mk 0 0
  norm_num

theorem Vec2.add_zero' (v : Vec2) : v + Vec2.mk 0 0 = v := by
  show Vec2.mk (v.x + 0) (v.y + 0) = v
  cases v
  norm_num

theorem Vec2.sub_self' (v : Vec2) : v - v = Vec2.mk 0 0 := by
  show Vec2.mk (v.x - v.x) (v.y - v.y) = Vec2.mk 0 0
  norm_num

theorem Vec2.lengthSq_zero : (Vec2.mk 0 0).lengthSq = 0 := by
  show (0 : ℝ) * 0 + 0 * 0 = 0
  norm_num

theorem Vec2.lengthSq_nonneg (v : Vec2) : 0 ≤ v.lengthSq :=
  add_nonneg (mul_self_nonneg _) (mul_self_nonneg _)

theorem Vec2.distSq_self (v : Vec2) : Vec2.distSq v v = 0 := by
  rw [Vec2.distSq, Vec2.sub_self', Vec2.lengthSq_zero]

/-! ## C3: fire control (`command_car`) -/

/-- C3.  The fire command is a silent no-op (the state is returned unchanged,
no error) when any precondition fails: no selection, selection not alive,
level in its complete state, launcher index out of range, or positive
cooldown.  When every precondition holds it appends exactly one projectile at
the launcher's position, aimed at the selected target and scaled to
`MISSILE_SPEED`, and sets that launcher's cooldown to 1.8 s. -/
theorem command_car_fire_control (s : GameState) (i j : ℕ) (t : Target)
    (car : SupportCar) :
    (s.level_complete = true → GameState.command_car i s = s) ∧
    (s.selected_target = none → GameState.command_car i s = s) ∧
    (s.selected_target = some j → s.arena[j]? = some t → t.alive = false →
      GameState.command_car i s = s) ∧
    (s.selected_target = some j → s.arena[j]? = some t → t.alive = true →
      (i = 0 ∨ s.cars.length < i) → GameState.command_car i s = s) ∧
    (s.selected_target = some j → s.arena[j]? = some t → t.alive = true →
      s.cars[i - 1]? = some car → 0 < car.cool_down →
      GameState.command_car i s = s) ∧
    (s.level_complete = false → s.selected_target = some j →
      s.arena[j]? = some t → t.alive = true → 1 ≤ i → i ≤ s.cars.length →
      s.cars[i - 1]? = some car → car.cool_down ≤ 0 →
      GameState.command_car i s =
        { s with
          missiles := s.missiles ++
            [⟨car.position,
              (if (t.position - car.position).lengthSq = 0 then Vec2.mk 1 0
               else t.position - car.position).normalize * MISSILE_SPEED,
              i, some j, true⟩],
          cars := s.cars.set (i - 1) { car with cool_down := 1.8 },
          events := s.events ++ ["shot"] }) := by
  refine ⟨?_, ?_, ?_, ?_, ?_, ?_⟩
  · intro hlc
    simp [GameState.command_car, hlc]
  · intro hsel
    simp [GameState.command_car, hsel]
  · intro hsel ht hdead
    simp [GameState.command_car, hsel, ht, hdead]
  · intro hsel ht halive hrange
    rcases hrange with h | h <;>
      simp [GameState.command_car, hsel, ht, halive, h]
  · intro hsel ht halive hcar hcd
    by_cases hr : i = 0 ∨ s.cars.length < i
    · rcases hr with h | h <;>
        simp [GameState.command_car, hsel, ht, halive, h]
    · push_neg at hr
      simp [GameState.command_car, hsel, ht, halive, hcar, hr.1, hr.2, hcd]
  · intro hlc hsel ht halive h1 h2 hcar hcd
    have hr : ¬(i = 0 ∨ s.cars.length < i) := by omega
    simp [GameState.command_car, hlc, hsel, ht, halive, hcar, hr,
      not_lt.mpr hcd]

/-! ## C8: projectiles that lost their target -/

/-- C8.  An active projectile whose target reference is absent, or whose
referenced target is dead, coasts one tick along its last velocity and is
deactivated; the purge at the end of `update_entities` leaves only active
missiles. -/
theorem missile_lost_target_dud (arena : List Target) (dt : ℝ) (m : Missile)
    (j : ℕ) (t : Target) (s : GameState)
    (hact : m.active = true)
    (hlost : m.target = none ∨
      (m.target = some j ∧ arena[j]? = some t ∧ t.alive = false)) :
    Missile.update arena dt m =
      { m with position := m.position + m.velocity * dt, active := false } ∧
    (GameState.update_entities dt s).missiles.all (fun x => x.active) = true := by
  constructor
  · rcases hlost with h | ⟨h1, h2, h3⟩
    · simp [Missile.update, hact, h]
    · simp [Missile.update, hact, h1, h2, h3]
  · simp only [GameState.update_entities, purgePhase]
    rw [List.all_eq_true]
    intro x hx
    exact (List.mem_filter.mp hx).2

/-- The target-less missile of the dud witness. -/
def mslC8 : Missile := ⟨⟨0, 0⟩, ⟨3, 4⟩, 1, none, true⟩

/-- Witness for C8 at a concrete missile and the empty session. -/
theorem missile_lost_target_dud_witness :
    Missile.update [] 1 mslC8 =
      { mslC8 with position := mslC8.position + mslC8.velocity * (1 : ℝ),
                   active := false } ∧
    (GameState.update_entities 1 baseState).missiles.all (fun x => x.active) = true :=
  missile_lost_target_dud [] 1 mslC8 0 noTarget baseState rfl (Or.inl rfl)

/-! ## C2: spawn speed (corrected: the source scales the sample by 0.8) -/

theorem Vec2.lengthSq_eq_zero_iff (v : Vec2) : v.lengthSq = 0 ↔ v = Vec2.mk 0 0 := by
  rw [Vec2.lengthSq, add_eq_zero_iff_of_nonneg (mul_self_nonneg _) (mul_self_nonneg _),
    mul_self_eq_zero, mul_self_eq_zero]
  constructor
  · rintro ⟨hx, hy⟩
    cases v
    simp_all
  · rintro rfl
    simp

/-- The Euclidean norm of `v.normalize() * c` is `c` itself, for `v ≠ 0` and
`c ≥ 0`. -/
theorem sqrt_lengthSq_normalize_hmul (v : Vec2) (c : ℝ)
    (hv : v.lengthSq ≠ 0) (hc : 0 ≤ c) :
    Real.sqrt ((v.normalize * c).lengthSq) = c := by
  have h0 : 0 ≤ v.lengthSq := Vec2.lengthSq_nonneg v
  have hpos : 0 < v.lengthSq := h0.lt_of_ne (Ne.symm hv)
  have hL : Real.sqrt v.lengthSq ≠ 0 := ne_of_gt (Real.sqrt_pos.mpr hpos)
  have hsq : Real.sqrt v.lengthSq * Real.sqrt v.lengthSq = v.lengthSq :=
    Real.mul_self_sqrt h0
  have hls : (v.normalize * c).lengthSq = c * c := by
    show (v.x / Real.sqrt v.lengthSq * c) * (v.x / Real.sqrt v.lengthSq * c) +
         (v.y / Real.sqrt v.lengthSq * c) * (v.y / Real.sqrt v.lengthSq * c) = c * c
    field_simp
    rw [Vec2.lengthSq]
    ring
  rw [hls, Real.sqrt_mul_self hc]

/-- The guarded spawn direction is never the zero vector. -/
theorem spawnDirOf_lengthSq_ne (r : SpawnRand) : (spawnDirOf r).lengthSq ≠ 0 := by
  unfold spawnDirOf
  split
  · show (1 : ℝ) * 1 + 0 * 0 ≠ 0
    norm_num
  · assumption

/-- Under the spawn cap, the freshly appended target of `spawn_target`. -/
theorem spawn_target_arena_getD (r : SpawnRand) (s : GameState)
    (hcap : s.targets.length < MAX_TARGETS) :
    (GameState.spawn_target r s).arena.getD s.arena.length noTarget =
      ⟨spawn_posOf r,
        (spawnDirOf r).normalize * (r.speedSample * 0.8 * s.enemy_speed_multiplier),
        r.ttype,
        headingOf ((spawnDirOf r).normalize *
          (r.speedSample * 0.8 * s.enemy_speed_multiplier)),
        true⟩ := by
  unfold GameState.spawn_target
  rw [if_neg (not_le.mpr hcap)]
  simp [List.getD, List.get?_concat_length, mul_assoc]

/-- C2 counterexample.  With the uniform sample 100 (inside the Drone range
70–120) and enemy-speed-multiplier 1, the spawned target's velocity is
`(-80, 0)`: its speed is 80 = 100 × 0.8 × 1, not the claimed
sample × multiplier = 100. -/
def randC2 : SpawnRand := ⟨TType.drone, 100, 0, 1, 0, 0, 0, 2.2⟩

/-- The spawn position at the counterexample draws. -/
theorem spawn_posOf_randC2 : spawn_posOf randC2 = Vec2.mk 1245 540 := by
  show BASE_POSITION + (Vec2.mk SPAWN_DISTANCE 0).rotate randC2.angle = Vec2.mk 1245 540
  rw [show randC2.angle = 0 from rfl]
  show Vec2.mk
      (BASE_POSITION.x + (SPAWN_DISTANCE * Real.cos (0 * Real.pi / 180) -
        0 * Real.sin (0 * Real.pi / 180)))
      (BASE_POSITION.y + (SPAWN_DISTANCE * Real.sin (0 * Real.pi / 180) +
        0 * Real.cos (0 * Real.pi / 180))) = Vec2.mk 1245 540
  norm_num [Real.cos_zero, Real.sin_zero, BASE_POSITION, SPAWN_DISTANCE, RADAR_RADIUS]

/-- The destination at the counterexample draws (flyby branch, drift 0). -/
theorem destinationOf_randC2 : destinationOf randC2 = Vec2.mk 1110 540 := by
  unfold destinationOf
  rw [if_neg (by rw [show randC2.roll = 1 from rfl]; norm_num)]
  rw [show randC2.angle + randC2.driftDelta = 0 from by
    rw [show randC2.angle = 0 from rfl, show randC2.driftDelta = 0 from rfl]
    norm_num]
  show Vec2.mk
      (BASE_POSITION.x + (RADAR_RADIUS * Real.cos (0 * Real.pi / 180) -
        0 * Real.sin (0 * Real.pi / 180)))
      (BASE_POSITION.y + (RADAR_RADIUS * Real.sin (0 * Real.pi / 180) +
        0 * Real.cos (0 * Real.pi / 180))) = Vec2.mk 1110 540
  norm_num [Real.cos_zero, Real.sin_zero, BASE_POSITION, RADAR_RADIUS]

/-- The spawn direction at the counterexample draws evaluates to `(-135, 0)`. -/
theorem spawnDirOf_randC2 : spawnDirOf randC2 = Vec2.mk (-135) 0 := by
  unfold spawnDirOf
  rw [destinationOf_randC2, spawn_posOf_randC2]
  rw [show Vec2.mk (1110:ℝ) 540 - Vec2.mk 1245 540 = Vec2.mk (-135) 0 from by
    show Vec2.mk ((1110:ℝ) - 1245) ((540:ℝ) - 540) = Vec2.mk (-135) 0
    norm_num]
  rw [if_neg (by
    show ¬ (((-135):ℝ) * (-135) + 0 * 0 = 0)
    norm_num)]

/-- Counterexample for C2: the spawned speed at the concrete draws is 80, not
sample × multiplier = 100 — `spawn_target` multiplies the uniform sample by
the extra factor 0.8 before applying the level multiplier. -/
theorem spawn_speed_claim_cex :
    ((GameState.spawn_target randC2 baseState).arena.getD 0 noTarget).velocity =
      Vec2.mk (-80) 0 ∧
    Real.sqrt (((GameState.spawn_target randC2 baseState).arena.getD 0
        noTarget).velocity.lengthSq) = 80 ∧
    ¬ (Real.sqrt (((GameState.spawn_target randC2 baseState).arena.getD 0
        noTarget).velocity.lengthSq) =
      randC2.speedSample * baseState.enemy_speed_multiplier) := by
  have hg := spawn_target_arena_getD randC2 baseState
    (by norm_num [baseState, MAX_TARGETS])
  rw [show baseState.arena.length = 0 from rfl] at hg
  have hvel : ((GameState.spawn_target randC2 baseState).arena.getD 0
      noTarget).velocity = Vec2.mk (-80) 0 := by
    rw [hg]
    show (spawnDirOf randC2).normalize *
      (randC2.speedSample * 0.8 * baseState.enemy_speed_multiplier) = Vec2.mk (-80) 0
    rw [spawnDirOf_randC2]
    have hnorm : (Vec2.mk (-135) 0).normalize = Vec2.mk (-1) 0 := by
      show Vec2.mk ((-135) / Real.sqrt ((Vec2.mk (-135) (0:ℝ)).lengthSq))
        (0 / Real.sqrt ((Vec2.mk (-135) (0:ℝ)).lengthSq)) = Vec2.mk (-1) 0
      have : (Vec2.mk (-135) (0:ℝ)).lengthSq = 135 ^ 2 := by
        show ((-135) : ℝ) * (-135) + 0 * 0 = 135 ^ 2
        norm_num
      rw [this, Real.sqrt_sq (by norm_num : (0:ℝ) ≤ 135)]
      norm_num
    rw [hnorm]
    show Vec2.mk ((-1) * (randC2.speedSample * 0.8 * baseState.enemy_speed_multiplier))
      (0 * (randC2.speedSample * 0.8 * baseState.enemy_speed_multiplier)) = Vec2.mk (-80) 0
    norm_num [randC2, baseState]
  refine ⟨hvel, ?_, ?_⟩
  · rw [hvel]
    rw [show (Vec2.mk (-80) (0:ℝ)).lengthSq = 80 ^ 2 by
      show ((-80) : ℝ) * (-80) + 0 * 0 = 80 ^ 2
      norm_num]
    exact Real.sqrt_sq (by norm_num)
  · rw [hvel]
    rw [show (Vec2.mk (-80) (0:ℝ)).lengthSq = 80 ^ 2 by
      show ((-80) : ℝ) * (-80) + 0 * 0 = 80 ^ 2
      norm_num]
    rw [Real.sqrt_sq (by norm_num : (0:ℝ) ≤ 80)]
    norm_num [randC2, baseState]

/-- C2 (amended).  For every uniform sample in the chosen type's speed range,
the spawned target's velocity is the unit spawn direction scaled by
sample × 0.8 × enemy-speed-multiplier; in particular its speed (Euclidean
norm) is sample × 0.8 × multiplier, not sample × multiplier. -/
theorem spawn_speed_amended (r : SpawnRand) (s : GameState)
    (hcap : s.targets.length < MAX_TARGETS)
    (hlo : typeSpeedLo r.ttype ≤ r.speedSample)
    (hhi : r.speedSample ≤ typeSpeedHi r.ttype)
    (hmul : 0 ≤ s.enemy_speed_multiplier) :
    ((GameState.spawn_target r s).arena.getD s.arena.length noTarget).velocity =
      (spawnDirOf r).normalize *
        (r.speedSample * 0.8 * s.enemy_speed_multiplier) ∧
    Real.sqrt (((GameState.spawn_target r s).arena.getD s.arena.length
        noTarget).velocity.lengthSq) =
      r.speedSample * 0.8 * s.enemy_speed_multiplier := by
  have hg := spawn_target_arena_getD r s hcap
  have hvel : ((GameState.spawn_target r s).arena.getD s.arena.length
      noTarget).velocity =
      (spawnDirOf r).normalize * (r.speedSample * 0.8 * s.enemy_speed_multiplier) := by
    rw [hg]
  have hs0 : (0:ℝ) ≤ r.speedSample := by
    refine le_trans ?_ hlo
    cases r.ttype <;> norm_num [typeSpeedLo]
  refine ⟨hvel, ?_⟩
  rw [hvel]
  exact sqrt_lengthSq_normalize_hmul _ _ (spawnDirOf_lengthSq_ne r)
    (by positivity)

/-- Witness for the amended C2 at the concrete draws of the counterexample. -/
theorem spawn_speed_amended_witness :
    ((GameState.spawn_target randC2 baseState).arena.getD
        baseState.arena.length noTarget).velocity =
      (spawnDirOf randC2).normalize *
        (randC2.speedSample * 0.8 * baseState.enemy_speed_multiplier) ∧
    Real.sqrt (((GameState.spawn_target randC2 baseState).arena.getD
        baseState.arena.length noTarget).velocity.lengthSq) =
      randC2.speedSample * 0.8 * baseState.enemy_speed_multiplier :=
  spawn_speed_amended randC2 baseState
    (by norm_num [baseState, MAX_TARGETS])
    (by norm_num [typeSpeedLo, randC2])
    (by norm_num [typeSpeedHi, randC2])
    (by norm_num [baseState])

/-! ## Structural facts about the phases -/

theorem foldl_proj {α σ β : Type _} (f : σ → α → σ) (proj : σ → β)
    (h : ∀ s a, proj (f s a) = proj s) :
    ∀ (l : List α) (s : σ), proj (l.foldl f s) = proj s := by
  intro l
  induction l with
  | nil => intro s; rfl
  | cons a l ih =>
    intro s
    rw [List.foldl_cons, ih, h]

/-- The kill-all-listed-targets fold of `start_level_complete` keeps the
arena length. -/
theorem killList_length (ids : List ℕ) : ∀ arena : List Target,
    (ids.foldl (fun a j =>
      match a[j]? with
      | some t => a.set j { t with alive := false }
      | none => a) arena).length = arena.length := by
  induction ids with
  | nil =>
    intro arena
    rfl
  | cons j rest ih =>
    intro arena
    rw [List.foldl_cons, ih]
    split
    · exact List.length_set ..
    · rfl

/-- The projectile-impact step touches neither the launchers, nor the target
list, nor the lives/level bookkeeping, and it keeps the lengths of the
missile list and of the arena. -/
theorem missileHitStep_preserves (s : GameState) (i : ℕ) :
    (missileHitStep s i).cars = s.cars ∧
    (missileHitStep s i).targets = s.targets ∧
    (missileHitStep s i).missiles.length = s.missiles.length ∧
    (missileHitStep s i).arena.length = s.arena.length ∧
    (missileHitStep s i).lives = s.lives ∧
    (missileHitStep s i).game_over = s.game_over ∧
    (missileHitStep s i).level = s.level ∧
    (missileHitStep s i).score_multiplier = s.score_multiplier := by
  unfold missileHitStep
  split
  · exact ⟨rfl, rfl, rfl, rfl, rfl, rfl, rfl, rfl⟩
  split
  · exact ⟨rfl, rfl, rfl, rfl, rfl, rfl, rfl, rfl⟩
  split
  · exact ⟨rfl, rfl, rfl, rfl, rfl, rfl, rfl, rfl⟩
  split
  · exact ⟨rfl, rfl, rfl, rfl, rfl, rfl, rfl, rfl⟩
  split
  · try dsimp only
    split
    · try dsimp only
      split
      · exact ⟨rfl, rfl, by simp [GameState.start_level_complete],
          by simp [GameState.start_level_complete, killList_length],
          rfl, rfl, rfl, rfl⟩
      · exact ⟨rfl, rfl, by simp, by simp, rfl, rfl, rfl, rfl⟩
    · exact ⟨rfl, rfl, by simp, by simp, rfl, rfl, rfl, rfl⟩
  · exact ⟨rfl, rfl, rfl, rfl, rfl, rfl, rfl, rfl⟩

/-- The base-collision step leaves launchers, target list, missiles, score
and level data unchanged (it only touches arena flags, lives, the damage
flash, events and the game-over flag). -/
theorem baseHitStep_preserves (s : GameState) (j : ℕ) :
    (baseHitStep s j).cars = s.cars ∧
    (baseHitStep s j).targets = s.targets ∧
    (baseHitStep s j).missiles = s.missiles ∧
    (baseHitStep s j).score = s.score ∧
    (baseHitStep s j).level = s.level ∧
    (baseHitStep s j).selected_target = s.selected_target ∧
    (baseHitStep s j).arena.length = s.arena.length := by
  unfold baseHitStep
  split
  · exact ⟨rfl, rfl, rfl, rfl, rfl, rfl, rfl⟩
  split
  · try dsimp only
    split
    · exact ⟨rfl, rfl, rfl, rfl, rfl, rfl, by simp⟩
    · exact ⟨rfl, rfl, rfl, rfl, rfl, rfl, by simp⟩
  · exact ⟨rfl, rfl, rfl, rfl, rfl, rfl, rfl⟩

/-- The escape step only rewrites an arena `alive` flag. -/
theorem escapeStep_preserves (s : GameState) (j : ℕ) :
    (escapeStep s j).cars = s.cars ∧
    (escapeStep s j).targets = s.targets ∧
    (escapeStep s j).missiles = s.missiles ∧
    (escapeStep s j).score = s.score ∧
    (escapeStep s j).lives = s.lives ∧
    (escapeStep s j).selected_target = s.selected_target := by
  unfold escapeStep
  split
  · exact ⟨rfl, rfl, rfl, rfl, rfl, rfl⟩
  split
  · exact ⟨rfl, rfl, rfl, rfl, rfl, rfl⟩
  · exact ⟨rfl, rfl, rfl, rfl, rfl, rfl⟩

/-- The launchers after a full `update_entities` tick: every cooldown is
decremented by `dt` and clamped at zero, nothing else about them changes. -/
theorem escapePhase_cars (x : GameState) : (escapePhase x).cars = x.cars :=
  foldl_proj escapeStep (fun st => st.cars)
    (fun st a => (escapeStep_preserves st a).1) x.targets x

theorem basePhase_cars (x : GameState) : (basePhase x).cars = x.cars :=
  foldl_proj baseHitStep (fun st => st.cars)
    (fun st a => (baseHitStep_preserves st a).1) x.targets x

theorem hitPhase_cars (x : GameState) : (hitPhase x).cars = x.cars :=
  foldl_proj missileHitStep (fun st => st.cars)
    (fun st a => (missileHitStep_preserves st a).1) _ x

theorem escapePhase_missiles (x : GameState) : (escapePhase x).missiles = x.missiles :=
  foldl_proj escapeStep (fun st => st.missiles)
    (fun st a => (escapeStep_preserves st a).2.2.1) x.targets x

theorem basePhase_missiles (x : GameState) : (basePhase x).missiles = x.missiles :=
  foldl_proj baseHitStep (fun st => st.missiles)
    (fun st a => (baseHitStep_preserves st a).2.2.1) x.targets x

theorem hitPhase_missiles_length (x : GameState) :
    (hitPhase x).missiles.length = x.missiles.length :=
  foldl_proj missileHitStep (fun st => st.missiles.length)
    (fun st a => (missileHitStep_preserves st a).2.2.1) _ x

theorem update_entities_cars (dt : ℝ) (s : GameState) :
    (GameState.update_entities dt s).cars =
      s.cars.map (fun c => { c with cool_down := max 0 (c.cool_down - dt) }) := by
  show (purgePhase (clearSelPhase (escapePhase (basePhase (hitPhase
    (cooldownPhase dt (updateMissilesPhase dt (updateTargetsPhase dt s)))))))).cars = _
  rw [show ∀ x : GameState, (purgePhase x).cars = x.cars from fun _ => rfl]
  rw [show ∀ x : GameState, (clearSelPhase x).cars = x.cars from fun _ => rfl]
  rw [escapePhase_cars, basePhase_cars, hitPhase_cars]
  rfl

/-- `update_entities` never creates a missile: the missile list can only
shrink (by the final purge). -/
theorem update_entities_missiles_le (dt : ℝ) (s : GameState) :
    (GameState.update_entities dt s).missiles.length ≤ s.missiles.length := by
  show (purgePhase (clearSelPhase (escapePhase (basePhase (hitPhase
    (cooldownPhase dt (updateMissilesPhase dt
      (updateTargetsPhase dt s)))))))).missiles.length ≤ _
  calc (purgePhase (clearSelPhase (escapePhase (basePhase (hitPhase (cooldownPhase dt
          (updateMissilesPhase dt (updateTargetsPhase dt s)))))))).missiles.length
      ≤ (clearSelPhase (escapePhase (basePhase (hitPhase (cooldownPhase dt
          (updateMissilesPhase dt (updateTargetsPhase dt s))))))).missiles.length :=
        List.length_filter_le _ _
    _ = s.missiles.length := by
        rw [show ∀ x : GameState, (clearSelPhase x).missiles = x.missiles from
          fun _ => rfl]
        rw [escapePhase_missiles, basePhase_missiles, hitPhase_missiles_length]
        simp [cooldownPhase, updateMissilesPhase, updateTargetsPhase]

/-- While a launcher's cooldown is positive, the fire command is a complete
no-op on the state. -/
theorem command_car_coolingDown_noop (s : GameState) (i : ℕ) (car : SupportCar)
    (hcar : s.cars[i - 1]? = some car) (hcd : 0 < car.cool_down) :
    GameState.command_car i s = s := by
  by_cases hlc : s.level_complete = true
  · simp [GameState.command_car, hlc]
  · rcases hsel : s.selected_target with _ | j
    · simp [GameState.command_car, hsel]
    rcases ht : s.arena[j]? with _ | t
    · simp [GameState.command_car, hsel, ht, hlc, eq_false_of_ne_true hlc]
    rcases halive : t.alive with _ | _
    · simp [GameState.command_car, hsel, ht, halive,
        eq_false_of_ne_true hlc]
    by_cases hr : i = 0 ∨ s.cars.length < i
    · rcases hr with h | h <;>
        simp [GameState.command_car, hsel, ht, halive, h,
          eq_false_of_ne_true hlc]
    · push_neg at hr
      simp [GameState.command_car, hsel, ht, halive, hcar, hr.1, hr.2, hcd,
        eq_false_of_ne_true hlc]

/-- One tick of `update_entities` against a launcher whose cooldown is the
known value `v ≥ 1/60`: the cooldown becomes `v - 1/60`. -/
theorem update_entities_cooldown_step (X : GameState) (i : ℕ) (c : SupportCar)
    (v : ℝ) (hc : X.cars[i - 1]? = some c) (hcv : c.cool_down = v)
    (hv : 0 ≤ v - 1 / 60) :
    (GameState.update_entities (1 / 60) X).cars[i - 1]? =
      some { c with cool_down := v - 1 / 60 } := by
  rw [update_entities_cars, List.getElem?_map, hc]
  simp only [Option.map_some']
  rw [hcv, max_eq_right hv]

/-- Cooldown bookkeeping for the firing experiment: after `j ≤ 107` ticks
each followed by a fire attempt, the launcher's cooldown is `1.8 - j/60` and
no missile has been added. -/
theorem fireEveryTick_cooldown (s : GameState) (i : ℕ) (car : SupportCar)
    (hcar : s.cars[i - 1]? = some car) (hcd : car.cool_down = 1.8) :
    ∀ j, j ≤ 107 →
      ((fireEveryTick i)^[j] s).cars[i - 1]? =
        some { car with cool_down := 1.8 - (j : ℝ) / 60 } ∧
      ((fireEveryTick i)^[j] s).missiles.length ≤ s.missiles.length := by
  intro j
  induction j with
  | zero =>
    intro _
    constructor
    · rw [Function.iterate_zero_apply, hcar]
      obtain ⟨p, idx, cd⟩ := car
      simp only [SupportCar.mk.injEq] at hcd ⊢
      subst hcd
      norm_num
    · rw [Function.iterate_zero_apply]
  | succ k ih =>
    intro hk
    obtain ⟨ihc, ihm⟩ := ih (by omega)
    have hkr : ((k : ℝ) + 1) ≤ 107 := by exact_mod_cast hk
    have hupd := update_entities_cooldown_step ((fireEveryTick i)^[k] s) i
      { car with cool_down := 1.8 - (k : ℝ) / 60 } (1.8 - (k : ℝ) / 60) ihc rfl
      (by linarith)
    have hpos : (0 : ℝ) < 1.8 - (k : ℝ) / 60 - 1 / 60 := by linarith
    have hnoop := command_car_coolingDown_noop
      (GameState.update_entities (1 / 60) ((fireEveryTick i)^[k] s)) i
      { car with cool_down := 1.8 - (k : ℝ) / 60 - 1 / 60 } hupd hpos
    rw [Function.iterate_succ_apply']
    rw [show fireEveryTick i ((fireEveryTick i)^[k] s) =
      GameState.command_car i
        (GameState.update_entities (1 / 60) ((fireEveryTick i)^[k] s)) from rfl]
    rw [hnoop]
    constructor
    · rw [hupd]
      congr 2
      push_cast
      ring
    · exact le_trans (update_entities_missiles_le _ _) ihm

/-! ## C4: no refire within the cooldown window -/

/-- C4.  With the 1.8 s cooldown just set and fixed 1/60 s ticks, after `j`
ticks (each advancing the simulation and then attempting to fire the same
launcher), for every `j ≤ 107` the cooldown reads `1.8 - j/60 > 0`, the
missile list has not grown, and the `j`-th fire attempt was a complete no-op
— so no second projectile can appear before 108 ticks have elapsed. -/
theorem launcher_cooldown_blocks_refire (s : GameState) (i j : ℕ)
    (car : SupportCar) (hcar : s.cars[i - 1]? = some car)
    (hcd : car.cool_down = 1.8) (hj : j ≤ 107) :
    ((fireEveryTick i)^[j] s).cars[i - 1]? =
      some { car with cool_down := 1.8 - (j : ℝ) / 60 } ∧
    ((fireEveryTick i)^[j] s).missiles.length ≤ s.missiles.length ∧
    (1 ≤ j → (fireEveryTick i)^[j] s =
      GameState.update_entities (1 / 60) ((fireEveryTick i)^[j - 1] s)) := by
  obtain ⟨h1, h2⟩ := fireEveryTick_cooldown s i car hcar hcd j hj
  refine ⟨h1, h2, ?_⟩
  intro hj1
  obtain ⟨k, rfl⟩ : ∃ k, j = k + 1 := ⟨j - 1, by omega⟩
  obtain ⟨hk1, _⟩ := fireEveryTick_cooldown s i car hcar hcd k (by omega)
  have hkr : ((k : ℝ) + 1) ≤ 107 := by exact_mod_cast hj
  have hupd := update_entities_cooldown_step ((fireEveryTick i)^[k] s) i
    { car with cool_down := 1.8 - (k : ℝ) / 60 } (1.8 - (k : ℝ) / 60) hk1 rfl
    (by linarith)
  have hpos : (0 : ℝ) < 1.8 - (k : ℝ) / 60 - 1 / 60 := by linarith
  rw [Function.iterate_succ_apply']
  rw [show fireEveryTick i ((fireEveryTick i)^[k] s) =
    GameState.command_car i
      (GameState.update_entities (1 / 60) ((fireEveryTick i)^[k] s)) from rfl]
  rw [command_car_coolingDown_noop _ i _ hupd hpos]
  simp only [Nat.add_sub_cancel]

/-- The freshly fired launcher of the cooldown witness. -/
def carC4 : SupportCar := ⟨⟨0, 0⟩, 1, 1.8⟩

/-- Session state for the cooldown witness. -/
def stateC4 : GameState := { baseState with cars := [carC4] }

set_option maxRecDepth 8000 in
/-- Witness for C4 at launcher 1 and the boundary tick 107. -/
theorem launcher_cooldown_blocks_refire_witness :
    ((fireEveryTick 1)^[107] stateC4).cars[1 - 1]? =
      some { carC4 with cool_down := 1.8 - (107 : ℝ) / 60 } ∧
    ((fireEveryTick 1)^[107] stateC4).missiles.length ≤ stateC4.missiles.length ∧
    (fireEveryTick 1)^[107] stateC4 =
      GameState.update_entities (1 / 60) ((fireEveryTick 1)^[107 - 1] stateC4) := by
  have h := launcher_cooldown_blocks_refire stateC4 1 107 carC4 rfl rfl
    (by norm_num)
  exact ⟨by simpa using h.1, h.2.1, h.2.2 (by norm_num)⟩

/-! ## The projectile-kill branch of the impact loop -/

theorem Vec2.add_def (a b : Vec2) : a + b = ⟨a.x + b.x, a.y + b.y⟩ := rfl

theorem Vec2.sub_def (a b : Vec2) : a - b = ⟨a.x - b.x, a.y - b.y⟩ := rfl

theorem Vec2.hmul_def (v : Vec2) (c : ℝ) : v * c = ⟨v.x * c, v.y * c⟩ := rfl

/-- An index with a present optional lookup is within bounds. -/
theorem getElem?_some_lt {α : Type _} {l : List α} {n : ℕ} {a : α}
    (h : l[n]? = some a) : n < l.length := by
  by_contra hn
  rw [List.getElem?_eq_none (by omega)] at h
  exact Option.noConfusion h

/-- The in-place kill of `start_level_complete` never revives a target and
kills the target it visits. -/
theorem killStep_dead (arena : List Target) (j k : ℕ)
    (h : aliveAt arena k = false) :
    aliveAt (match arena[j]? with
      | some t => arena.set j { t with alive := false }
      | none => arena) k = false := by
  split
  · rename_i t ht
    unfold aliveAt
    by_cases hk : k = j
    · subst hk
      rw [List.getElem?_set_self (getElem?_some_lt ht)]
    · rw [List.getElem?_set_ne (fun hjk => hk hjk.symm)]
      exact h
  · exact h

/-- After visiting index `j`, the target at `j` is dead. -/
theorem killStep_self (arena : List Target) (j : ℕ) :
    aliveAt (match arena[j]? with
      | some t => arena.set j { t with alive := false }
      | none => arena) j = false := by
  split
  · rename_i t ht
    unfold aliveAt
    rw [List.getElem?_set_self (getElem?_some_lt ht)]
  · rename_i ht
    unfold aliveAt
    rw [ht]

/-- The kill fold of `start_level_complete` leaves every visited target (and
every already-dead one) not alive. -/
theorem killList_dead (ids : List ℕ) : ∀ (arena : List Target) (k : ℕ),
    (k ∈ ids ∨ aliveAt arena k = false) →
    aliveAt (ids.foldl (fun a j =>
      match a[j]? with
      | some t => a.set j { t with alive := false }
      | none => a) arena) k = false := by
  induction ids with
  | nil =>
    intro arena k h
    rcases h with h | h
    · exact absurd h (List.not_mem_nil k)
    · exact h
  | cons j rest ih =>
    intro arena k h
    rw [List.foldl_cons]
    apply ih
    rcases h with hmem | hdead
    · rcases List.mem_cons.mp hmem with heq | hr
      · subst heq
        exact Or.inr (killStep_self arena k)
      · exact Or.inl hr
    · exact Or.inr (killStep_dead arena j k hdead)

/-- The impact step at a position holding an active missile whose live target
is within the hit radius: the missile and target are marked dead, an
explosion and the score award are recorded, the per-level counter increments,
and `start_level_complete` runs exactly when the counter reaches the level
target. -/
theorem missileHitStep_kill (s : GameState) (i j : ℕ) (m : Missile)
    (t : Target) (hlc : s.level_complete = false)
    (hm : s.missiles[i]? = some m) (hact : m.active = true)
    (htg : m.target = some j) (ht : s.arena[j]? = some t)
    (halive : t.alive = true)
    (hdist : Vec2.distSq m.position t.position < HIT_RADIUS * HIT_RADIUS) :
    missileHitStep s i =
      (if LEVEL_TARGET_COUNT ≤ s.targets_destroyed + 1 then
        GameState.start_level_complete
          { s with missiles := s.missiles.set i { m with active := false },
                   arena := s.arena.set j { t with alive := false },
                   explosions := s.explosions ++ [⟨t.position, 0, 0.6⟩],
                   events := s.events ++ ["explosion"],
                   score := s.score + typeScore t.target_type * s.score_multiplier,
                   targets_destroyed := s.targets_destroyed + 1 }
      else
        { s with missiles := s.missiles.set i { m with active := false },
                 arena := s.arena.set j { t with alive := false },
                 explosions := s.explosions ++ [⟨t.position, 0, 0.6⟩],
                 events := s.events ++ ["explosion"],
                 score := s.score + typeScore t.target_type * s.score_multiplier,
                 targets_destroyed := s.targets_destroyed + 1 }) := by
  unfold missileHitStep
  rw [hm]
  dsimp only
  rw [hact]
  rw [if_neg (by simp)]
  rw [htg]
  dsimp only
  rw [ht]
  dsimp only
  rw [if_pos ⟨halive, hdist⟩]
  rw [hlc]
  rw [if_pos rfl]

/-! ## C5: level-completion trigger -/

/-- C5.  A projectile kill increments the per-level destroyed counter by one,
and level completion triggers exactly when the counter reaches
`LEVEL_TARGET_COUNT` (20): a kill that leaves it below 20 changes neither the
transition timer, nor the selection, nor the flag; the kill that reaches 20
enters the complete state — transition timer 3.0 s, selection cleared,
explosions cleared, every missile inactive and every listed target dead. -/
theorem level_completion_trigger (s : GameState) (i j : ℕ) (m : Missile)
    (t : Target) (hlc : s.level_complete = false)
    (hm : s.missiles[i]? = some m) (hact : m.active = true)
    (htg : m.target = some j) (ht : s.arena[j]? = some t)
    (halive : t.alive = true)
    (hdist : Vec2.distSq m.position t.position < HIT_RADIUS * HIT_RADIUS) :
    (missileHitStep s i).targets_destroyed = s.targets_destroyed + 1 ∧
    ((missileHitStep s i).level_complete = true ↔
      LEVEL_TARGET_COUNT ≤ s.targets_destroyed + 1) ∧
    (s.targets_destroyed + 1 < LEVEL_TARGET_COUNT →
      (missileHitStep s i).level_complete = false ∧
      (missileHitStep s i).level_transition_timer = s.level_transition_timer ∧
      (missileHitStep s i).selected_target = s.selected_target) ∧
    (LEVEL_TARGET_COUNT ≤ s.targets_destroyed + 1 →
      (missileHitStep s i).level_transition_timer = LEVEL_COMPLETE_PAUSE ∧
      (missileHitStep s i).selected_target = none ∧
      (missileHitStep s i).explosions = [] ∧
      (missileHitStep s i).missiles.all (fun x => !x.active) = true ∧
      s.targets.all (fun k => !(aliveAt (missileHitStep s i).arena k)) = true) := by
  have hk := missileHitStep_kill s i j m t hlc hm hact htg ht halive hdist
  refine ⟨?_, ?_, ?_, ?_⟩
  · rw [hk]
    split <;> rfl
  · rw [hk]
    by_cases h20 : LEVEL_TARGET_COUNT ≤ s.targets_destroyed + 1
    · rw [if_pos h20]
      exact ⟨fun _ => h20, fun _ => rfl⟩
    · rw [if_neg h20]
      simp [hlc, h20]
  · intro h
    rw [hk, if_neg (by omega)]
    exact ⟨hlc, rfl, rfl⟩
  · intro h20
    rw [hk, if_pos h20]
    refine ⟨rfl, rfl, rfl, ?_, ?_⟩
    · simp only [GameState.start_level_complete]
      rw [List.all_eq_true]
      intro x hx
      rcases List.mem_map.mp hx with ⟨y, hy, rfl⟩
      rfl
    · rw [List.all_eq_true]
      intro k hk2
      simp only [GameState.start_level_complete]
      rw [killList_dead _ _ _ (Or.inl hk2)]
      rfl

/-- The live target of the level-completion witness. -/
def tgtC5 : Target := ⟨⟨300, 300⟩, ⟨0, 0⟩, TType.drone, 0, true⟩

/-- The missile that scores the 20th kill in the witness. -/
def mslC5 : Missile := ⟨⟨300, 300⟩, ⟨0, 0⟩, 1, some 0, true⟩

/-- Session state one kill short of level completion. -/
def stateC5 : GameState :=
  { baseState with arena := [tgtC5], targets := [0], missiles := [mslC5],
                   targets_destroyed := 19, selected_target := some 0 }

/-- Witness for C5: the 20th kill triggers level completion with all of its
entry effects. -/
theorem level_completion_trigger_witness :
    (missileHitStep stateC5 0).targets_destroyed = stateC5.targets_destroyed + 1 ∧
    ((missileHitStep stateC5 0).level_complete = true ↔
      LEVEL_TARGET_COUNT ≤ stateC5.targets_destroyed + 1) ∧
    (stateC5.targets_destroyed + 1 < LEVEL_TARGET_COUNT →
      (missileHitStep stateC5 0).level_complete = false ∧
      (missileHitStep stateC5 0).level_transition_timer = stateC5.level_transition_timer ∧
      (missileHitStep stateC5 0).selected_target = stateC5.selected_target) ∧
    (LEVEL_TARGET_COUNT ≤ stateC5.targets_destroyed + 1 →
      (missileHitStep stateC5 0).level_transition_timer = LEVEL_COMPLETE_PAUSE ∧
      (missileHitStep stateC5 0).selected_target = none ∧
      (missileHitStep stateC5 0).explosions = [] ∧
      (missileHitStep stateC5 0).missiles.all (fun x => !x.active) = true ∧
      stateC5.targets.all (fun k => !(aliveAt (missileHitStep stateC5 0).arena k)) = true) :=
  level_completion_trigger stateC5 0 0 mslC5 tgtC5 rfl rfl rfl rfl rfl rfl
    (by norm_num [mslC5, tgtC5, Vec2.distSq, Vec2.sub_def, Vec2.lengthSq, HIT_RADIUS])

/-! ## C6: score accounting -/

theorem command_car_score (s : GameState) (i : ℕ) :
    (GameState.command_car i s).score = s.score := by
  unfold GameState.command_car
  repeat first | rfl | split

theorem select_target_score (s : GameState) (p : Vec2) :
    (GameState.select_target p s).score = s.score := by
  unfold GameState.select_target
  dsimp only
  split <;> rfl

theorem spawn_target_score (s : GameState) (r : SpawnRand) :
    (GameState.spawn_target r s).score = s.score := by
  unfold GameState.spawn_target
  repeat first | rfl | split

/-- C6.  Only a projectile kill changes the score: every other operation and
tick phase leaves it unchanged, a kill adds exactly
`type.score × score_multiplier`, the multiplier recomputed on a level change
is `2^(level-1)`, and the concrete awards are Drone at level 1 ↦ 75 and
Missile at level 3 ↦ 560. -/
theorem score_accounting (s sk : GameState) (dt : ℝ) (c k : ℕ) (p : Vec2)
    (r : SpawnRand) (i j : ℕ) (m : Missile) (t : Target)
    (hlc : sk.level_complete = false)
    (hm : sk.missiles[i]? = some m) (hact : m.active = true)
    (htg : m.target = some j) (ht : sk.arena[j]? = some t)
    (halive : t.alive = true)
    (hdist : Vec2.distSq m.position t.position < HIT_RADIUS * HIT_RADIUS) :
    (GameState.command_car c s).score = s.score ∧
    (GameState.select_target p s).score = s.score ∧
    (GameState.spawn_target r s).score = s.score ∧
    (updateTargetsPhase dt s).score = s.score ∧
    (updateMissilesPhase dt s).score = s.score ∧
    (cooldownPhase dt s).score = s.score ∧
    (baseHitStep s k).score = s.score ∧
    (escapeStep s k).score = s.score ∧
    (clearSelPhase s).score = s.score ∧
    (purgePhase s).score = s.score ∧
    (GameState.start_level_complete s).score = s.score ∧
    (GameState.advance_level s).score = s.score ∧
    (GameState.apply_level_parameters s).score_multiplier = 2 ^ (s.level - 1) ∧
    (missileHitStep sk i).score =
      sk.score + typeScore t.target_type * sk.score_multiplier ∧
    typeScore TType.drone * 2 ^ (1 - 1) = 75 ∧
    typeScore TType.missile * 2 ^ (3 - 1) = 560 := by
  refine ⟨command_car_score s c, select_target_score s p, spawn_target_score s r,
    rfl, rfl, rfl, (baseHitStep_preserves s k).2.2.2.1,
    (escapeStep_preserves s k).2.2.2.1, rfl, rfl, rfl, rfl, rfl, ?_, by decide,
    by decide⟩
  rw [missileHitStep_kill sk i j m t hlc hm hact htg ht halive hdist]
  split <;> rfl

/-- Witness for C6 at the concrete kill state of the C5 witness and the empty
session. -/
theorem score_accounting_witness :
    (GameState.command_car 1 baseState).score = baseState.score ∧
    (GameState.select_target ⟨0, 0⟩ baseState).score = baseState.score ∧
    (GameState.spawn_target randC2 baseState).score = baseState.score ∧
    (updateTargetsPhase 1 baseState).score = baseState.score ∧
    (updateMissilesPhase 1 baseState).score = baseState.score ∧
    (cooldownPhase 1 baseState).score = baseState.score ∧
    (baseHitStep baseState 0).score = baseState.score ∧
    (escapeStep baseState 0).score = baseState.score ∧
    (clearSelPhase baseState).score = baseState.score ∧
    (purgePhase baseState).score = baseState.score ∧
    (GameState.start_level_complete baseState).score = baseState.score ∧
    (GameState.advance_level baseState).score = baseState.score ∧
    (GameState.apply_level_parameters baseState).score_multiplier =
      2 ^ (baseState.level - 1) ∧
    (missileHitStep stateC5 0).score =
      stateC5.score + typeScore tgtC5.target_type * stateC5.score_multiplier ∧
    typeScore TType.drone * 2 ^ (1 - 1) = 75 ∧
    typeScore TType.missile * 2 ^ (3 - 1) = 560 :=
  score_accounting baseState stateC5 1 1 0 ⟨0, 0⟩ randC2 0 0 mslC5 tgtC5
    rfl rfl rfl rfl rfl rfl
    (by norm_num [mslC5, tgtC5, Vec2.distSq, Vec2.sub_def, Vec2.lengthSq, HIT_RADIUS])

/-! ## C7: the selection never outlives its target -/

theorem selOkB_purgePhase (s : GameState) : selOkB (purgePhase s) = selOkB s := rfl

/-- The clear-selection phase establishes the invariant unconditionally. -/
theorem selOkB_clearSelPhase (s : GameState) : selOkB (clearSelPhase s) = true := by
  unfold selOkB clearSelPhase
  cases hs : s.selected_target with
  | none => rfl
  | some j =>
    dsimp only
    by_cases ha : aliveAt s.arena j = true
    · rw [if_pos ha]
      exact ha
    · rw [if_neg ha]

/-- After any `update_entities` tick the selection is empty or alive. -/
theorem selOkB_update_entities (dt : ℝ) (s : GameState) :
    selOkB (GameState.update_entities dt s) = true := by
  show selOkB (purgePhase (clearSelPhase (escapePhase (basePhase (hitPhase
    (cooldownPhase dt (updateMissilesPhase dt (updateTargetsPhase dt s)))))))) = true
  rw [selOkB_purgePhase, selOkB_clearSelPhase]

/-- A freshly selected target is alive: the selection fold only ever stores
indices whose arena entry passed the `alive` filter. -/
theorem select_fold_alive (arena : List Target) (p : Vec2) :
    ∀ (l : List ℕ) (acc : Option ℕ × ℝ),
      (∀ j, acc.1 = some j → aliveAt arena j = true) →
      ∀ j, ((l.foldl (fun (acc : Option ℕ × ℝ) j =>
        match arena[j]? with
        | none => acc
        | some t =>
          if t.alive = false then acc
          else
            if Vec2.distSq p t.position < 20 * 20 ∧ Vec2.distSq p t.position < acc.2
            then (some j, Vec2.distSq p t.position) else acc) acc).1 = some j) →
      aliveAt arena j = true := by
  intro l
  induction l with
  | nil =>
    intro acc hacc j h
    exact hacc j h
  | cons k rest ih =>
    intro acc hacc j h
    rw [List.foldl_cons] at h
    refine ih _ ?_ j h
    intro j' hj'
    revert hj'
    split
    · exact hacc j'
    · rename_i t ht
      split
      · exact hacc j'
      · rename_i halive2
        split
        · intro hj'
          have hkj : k = j' := Option.some.inj hj'
          subst hkj
          simp only [Bool.not_eq_false] at halive2
          unfold aliveAt
          rw [ht]
          exact halive2
        · exact hacc j'

/-- `select_target` keeps the invariant: it either leaves the selection or
picks a live target. -/
theorem selOkB_select_target (s : GameState) (p : Vec2)
    (hok : selOkB s = true) : selOkB (GameState.select_target p s) = true := by
  unfold GameState.select_target
  dsimp only
  split
  · rename_i j hj
    show aliveAt s.arena j = true
    exact select_fold_alive s.arena p s.targets _ (fun j h => Option.noConfusion h) j hj
  · exact hok

/-- The fire command never touches the selection or the arena. -/
theorem selOkB_command_car (s : GameState) (c : ℕ) :
    selOkB (GameState.command_car c s) = selOkB s := by
  unfold GameState.command_car
  repeat first | rfl | split

/-- A full `update` keeps the invariant (the game-over and level-complete
branches leave selection and arena alone; `advance_level` clears the
selection; the active branch ends in `update_entities`). -/
theorem selOkB_update (dt : ℝ) (r : SpawnRand) (s : GameState)
    (hok : selOkB s = true) : selOkB (GameState.update dt r s) = true := by
  unfold GameState.update
  dsimp only
  repeat first
    | exact hok
    | exact selOkB_update_entities _ _
    | rfl
    | split

/-- C7.  The selection invariant "`selected_target` is empty or refers to a
live target": `update_entities` establishes it unconditionally within the
tick (after the projectile, base and escape checks), `start_level_complete`
clears the selection, and every player command and the full `update` preserve
it — so a dead target is never selected across a tick boundary. -/
theorem selection_cleared_same_tick (dt : ℝ) (r : SpawnRand) (s : GameState)
    (p : Vec2) (c : ℕ) (hok : selOkB s = true) :
    selOkB (GameState.update_entities dt s) = true ∧
    selOkB (GameState.start_level_complete s) = true ∧
    selOkB (GameState.update dt r s) = true ∧
    selOkB (GameState.select_target p s) = true ∧
    selOkB (GameState.command_car c s) = true :=
  ⟨selOkB_update_entities dt s, rfl, selOkB_update dt r s hok,
    selOkB_select_target s p hok, (selOkB_command_car s c).trans hok⟩

/-- Witness for C7 at a state whose selection holds a live target. -/
theorem selection_cleared_same_tick_witness :
    selOkB (GameState.update_entities 1 stateC5) = true ∧
    selOkB (GameState.start_level_complete stateC5) = true ∧
    selOkB (GameState.update 1 randC2 stateC5) = true ∧
    selOkB (GameState.select_target ⟨0, 0⟩ stateC5) = true ∧
    selOkB (GameState.command_car 1 stateC5) = true :=
  selection_cleared_same_tick 1 randC2 stateC5 ⟨0, 0⟩ 1 rfl

/-! ## C9: no simulation while frozen -/

/-- In the game-over state `update` only decays the damage flash, ages the
explosions and zeroes the lock timer. -/
theorem update_gameOver_eq (dt : ℝ) (r : SpawnRand) (s : GameState)
    (h : s.game_over = true) :
    GameState.update dt r s =
      { s with
        radar_damage_timer := max 0 (s.radar_damage_timer - dt),
        explosions := ((s.explosions.map (fun e => { e with timer := e.timer + dt })).filter
          (fun e => decide (e.timer < e.lifetime))),
        lock_timer := 0 } := by
  unfold GameState.update
  dsimp only
  rw [if_pos h]

/-- C9.  While game-over, an `update` changes none of score, lives, level,
targets, missiles or cooldowns.  While level-complete (and not game-over)
with time still on the transition clock, the same fields are unchanged and
only the countdown decreases by `dt`; when the countdown expires the tick
performs exactly the level transition (level+1, flag cleared, entities
cleared, counter reset) and still no scoring or life loss. -/
theorem frozen_states_no_simulation (dt : ℝ) (r : SpawnRand)
    (sG sL sE : GameState)
    (hG : sG.game_over = true)
    (hL1 : sL.level_complete = true) (hL2 : sL.game_over = false)
    (hLt : 0 < sL.level_transition_timer - dt)
    (hE1 : sE.level_complete = true) (hE2 : sE.game_over = false)
    (hEt : sE.level_transition_timer - dt ≤ 0) :
    (GameState.update dt r sG).score = sG.score ∧
    (GameState.update dt r sG).lives = sG.lives ∧
    (GameState.update dt r sG).level = sG.level ∧
    (GameState.update dt r sG).targets = sG.targets ∧
    (GameState.update dt r sG).missiles = sG.missiles ∧
    (GameState.update dt r sG).cars = sG.cars ∧
    (GameState.update dt r sL).score = sL.score ∧
    (GameState.update dt r sL).lives = sL.lives ∧
    (GameState.update dt r sL).level = sL.level ∧
    (GameState.update dt r sL).targets = sL.targets ∧
    (GameState.update dt r sL).missiles = sL.missiles ∧
    (GameState.update dt r sL).cars = sL.cars ∧
    (GameState.update dt r sL).level_transition_timer =
      sL.level_transition_timer - dt ∧
    (GameState.update dt r sE).score = sE.score ∧
    (GameState.update dt r sE).lives = sE.lives ∧
    (GameState.update dt r sE).level = sE.level + 1 ∧
    (GameState.update dt r sE).level_complete = false ∧
    (GameState.update dt r sE).targets = [] ∧
    (GameState.update dt r sE).missiles = [] ∧
    (GameState.update dt r sE).targets_destroyed = 0 := by
  have hG0 := update_gameOver_eq dt r sG hG
  have hL0 : (GameState.update dt r sL).score = sL.score ∧
      (GameState.update dt r sL).lives = sL.lives ∧
      (GameState.update dt r sL).level = sL.level ∧
      (GameState.update dt r sL).targets = sL.targets ∧
      (GameState.update dt r sL).missiles = sL.missiles ∧
      (GameState.update dt r sL).cars = sL.cars ∧
      (GameState.update dt r sL).level_transition_timer =
        sL.level_transition_timer - dt := by
    unfold GameState.update
    dsimp only
    rw [if_neg (by simp [hL2])]
    repeat
      first
        | exact ⟨rfl, rfl, rfl, rfl, rfl, rfl, rfl⟩
        | rw [if_pos hL1]
        | rw [if_neg (not_le.mpr hLt)]
        | dsimp only
        | split
  have hE0 : (GameState.update dt r sE).score = sE.score ∧
      (GameState.update dt r sE).lives = sE.lives ∧
      (GameState.update dt r sE).level = sE.level + 1 ∧
      (GameState.update dt r sE).level_complete = false ∧
      (GameState.update dt r sE).targets = [] ∧
      (GameState.update dt r sE).missiles = [] ∧
      (GameState.update dt r sE).targets_destroyed = 0 := by
    unfold GameState.update
    dsimp only
    rw [if_neg (by simp [hE2])]
    repeat
      first
        | exact ⟨rfl, rfl, rfl, rfl, rfl, rfl, rfl⟩
        | rw [if_pos hE1]
        | rw [if_pos hEt]
        | dsimp only
        | split
  exact ⟨by rw [hG0], by rw [hG0], by rw [hG0], by rw [hG0], by rw [hG0],
    by rw [hG0], hL0.1, hL0.2.1, hL0.2.2.1, hL0.2.2.2.1, hL0.2.2.2.2.1,
    hL0.2.2.2.2.2.1, hL0.2.2.2.2.2.2, hE0.1, hE0.2.1, hE0.2.2.1,
    hE0.2.2.2.1, hE0.2.2.2.2.1, hE0.2.2.2.2.2.1, hE0.2.2.2.2.2.2⟩

/-- The game-over, waiting and expiring concrete states of the C9 witness. -/
def stateC9G : GameState := { baseState with game_over := true }

/-- Level-complete state with 3 s left on the transition clock. -/
def stateC9L : GameState :=
  { baseState with level_complete := true, level_transition_timer := 3 }

/-- Level-complete state whose transition clock expires this tick. -/
def stateC9E : GameState :=
  { baseState with level_complete := true, level_transition_timer := 0.5 }

/-- Witness for C9 with `dt = 1`. -/
theorem frozen_states_no_simulation_witness :
    (GameState.update 1 randC2 stateC9G).score = stateC9G.score ∧
    (GameState.update 1 randC2 stateC9G).lives = stateC9G.lives ∧
    (GameState.update 1 randC2 stateC9G).level = stateC9G.level ∧
    (GameState.update 1 randC2 stateC9G).targets = stateC9G.targets ∧
    (GameState.update 1 randC2 stateC9G).missiles = stateC9G.missiles ∧
    (GameState.update 1 randC2 stateC9G).cars = stateC9G.cars ∧
    (GameState.update 1 randC2 stateC9L).score = stateC9L.score ∧
    (GameState.update 1 randC2 stateC9L).lives = stateC9L.lives ∧
    (GameState.update 1 randC2 stateC9L).level = stateC9L.level ∧
    (GameState.update 1 randC2 stateC9L).targets = stateC9L.targets ∧
    (GameState.update 1 randC2 stateC9L).missiles = stateC9L.missiles ∧
    (GameState.update 1 randC2 stateC9L).cars = stateC9L.cars ∧
    (GameState.update 1 randC2 stateC9L).level_transition_timer =
      stateC9L.level_transition_timer - 1 ∧
    (GameState.update 1 randC2 stateC9E).score = stateC9E.score ∧
    (GameState.update 1 randC2 stateC9E).lives = stateC9E.lives ∧
    (GameState.update 1 randC2 stateC9E).level = stateC9E.level + 1 ∧
    (GameState.update 1 randC2 stateC9E).level_complete = false ∧
    (GameState.update 1 randC2 stateC9E).targets = [] ∧
    (GameState.update 1 randC2 stateC9E).missiles = [] ∧
    (GameState.update 1 randC2 stateC9E).targets_destroyed = 0 :=
  frozen_states_no_simulation 1 randC2 stateC9G stateC9L stateC9E rfl rfl rfl
    (by norm_num [stateC9L, baseState]) rfl rfl
    (by norm_num [stateC9E, baseState])

/-! ## C10: simultaneous base hits -/

theorem countP_ext {α : Type _} (p q : α → Bool) (l : List α)
    (h : ∀ a, p a = q a) : l.countP p = l.countP q := by
  induction l with
  | nil => rfl
  | cons a l ih => rw [List.countP_cons, List.countP_cons, h, ih]

/-- The base-collision step does not change which listed indices are within
the base radius (it only flips `alive` flags). -/
theorem baseHitStep_hitBase (s : GameState) (j k : ℕ) :
    hitBase (baseHitStep s j).arena k = hitBase s.arena k := by
  unfold baseHitStep
  split
  · rfl
  · rename_i t ht
    split
    · try dsimp only
      split <;>
        (unfold hitBase
         by_cases hk : k = j
         · subst hk
           rw [List.getElem?_set_self (getElem?_some_lt ht), ht]
         · rw [List.getElem?_set_ne (fun h => hk h.symm)])
    · rfl

/-- A listed index outside the base radius (or dangling) is skipped. -/
theorem baseHitStep_noHit (s : GameState) (j : ℕ)
    (h : hitBase s.arena j = false) : baseHitStep s j = s := by
  unfold baseHitStep
  unfold hitBase at h
  revert h
  split
  · rename_i t ht
    intro h
    rw [ht]
    dsimp only
    rw [if_neg (of_decide_eq_false h)]
  · rename_i ht
    intro h
    rw [ht]

/-- The base-collision step at a listed target inside the base radius:
target killed in place, one life lost, damage flash and sound, and the
game-over transition exactly when the decrement reaches zero or below. -/
theorem baseHitStep_hit (s : GameState) (j : ℕ) (t : Target)
    (ht : s.arena[j]? = some t)
    (hd : Vec2.distSq t.position BASE_POSITION < BASE_RADIUS * BASE_RADIUS) :
    baseHitStep s j =
      (if s.lives - 1 ≤ 0 ∧ s.game_over = false then
        { s with arena := s.arena.set j { t with alive := false },
                 lives := s.lives - 1, radar_damage_timer := 0.5,
                 events := (s.events ++ ["damage"]) ++ ["game_over"],
                 game_over := true }
      else
        { s with arena := s.arena.set j { t with alive := false },
                 lives := s.lives - 1, radar_damage_timer := 0.5,
                 events := s.events ++ ["damage"] }) := by
  unfold baseHitStep
  rw [ht]
  dsimp only
  rw [if_pos hd]

/-- Lives, game-over flag and game-over sound count across the whole
base-collision fold, in terms of the number `k` of listed indices within the
base radius: lives drop by exactly `k` with no clamp, the flag ends true iff
it was true or `k ≥ 1 ∧ lives ≤ k`, and the game-over sound is emitted at
most once — exactly on the transition. -/
theorem basePhase_fold (ids : List ℕ) : ∀ s : GameState,
    ((ids.foldl baseHitStep s).lives =
      s.lives - (ids.countP (hitBase s.arena) : ℤ)) ∧
    (((ids.foldl baseHitStep s).game_over = true) ↔
      (s.game_over = true ∨ (1 ≤ ids.countP (hitBase s.arena) ∧
        s.lives ≤ (ids.countP (hitBase s.arena) : ℤ)))) ∧
    ((ids.foldl baseHitStep s).events.count "game_over" =
      s.events.count "game_over" +
        (if s.game_over = false ∧ 1 ≤ ids.countP (hitBase s.arena) ∧
            s.lives ≤ (ids.countP (hitBase s.arena) : ℤ) then 1 else 0)) := by
  induction ids with
  | nil =>
    intro s
    refine ⟨by simp, ?_, ?_⟩
    · simp
    · simp
  | cons j rest ih =>
    intro s
    rw [List.foldl_cons]
    cases hhb : hitBase s.arena j with
    | false =>
      rw [baseHitStep_noHit s j hhb]
      obtain ⟨ih1, ih2, ih3⟩ := ih s
      simp only [List.countP_cons, hhb]
      simp only [Bool.false_eq_true, if_false, Nat.add_zero]
      exact ⟨ih1, ih2, ih3⟩
    | true =>
      obtain ⟨t, ht, hd⟩ : ∃ t, s.arena[j]? = some t ∧
          Vec2.distSq t.position BASE_POSITION < BASE_RADIUS * BASE_RADIUS := by
        unfold hitBase at hhb
        revert hhb
        split
        · rename_i t' ht'
          intro hhb
          exact ⟨t', ht', of_decide_eq_true hhb⟩
        · intro hhb
          exact absurd hhb (by simp)
      have hstep := baseHitStep_hit s j t ht hd
      obtain ⟨ih1, ih2, ih3⟩ := ih (baseHitStep s j)
      have hcnt : rest.countP (hitBase (baseHitStep s j).arena) =
          rest.countP (hitBase s.arena) :=
        countP_ext _ _ rest (fun k => baseHitStep_hitBase s j k)
      have hlives' : (baseHitStep s j).lives = s.lives - 1 := by
        rw [hstep]
        split <;> rfl
      have hgo' : ((baseHitStep s j).game_over = true) ↔
          (s.game_over = true ∨ s.lives ≤ 1) := by
        rw [hstep]
        split
        · rename_i hc
          exact ⟨fun _ => Or.inr (by omega), fun _ => rfl⟩
        · rename_i hc
          show (s.game_over = true) ↔ (s.game_over = true ∨ s.lives ≤ 1)
          cases hgo : s.game_over
          · have hnl : ¬ (s.lives - 1 ≤ 0) := fun hl => hc ⟨hl, hgo⟩
            constructor
            · intro h
              exact absurd h (by simp)
            · intro h
              rcases h with h | h
              · exact h
              · exact absurd h (by omega)
          · simp [hgo]
      have hev' : (baseHitStep s j).events.count "game_over" =
          s.events.count "game_over" +
            (if s.game_over = false ∧ s.lives ≤ 1 then 1 else 0) := by
        have hc1 : List.count "game_over" ["damage"] = 0 := by decide
        have hc2 : List.count "game_over" ["game_over"] = 1 := by decide
        rw [hstep]
        split
        · rename_i hc
          rw [if_pos ⟨hc.2, by omega⟩]
          show ((s.events ++ ["damage"]) ++ ["game_over"]).count "game_over" = _
          rw [List.count_append, List.count_append, hc1, hc2]
        · rename_i hc
          rw [if_neg (fun hcon => hc ⟨by omega, hcon.1⟩)]
          show (s.events ++ ["damage"]).count "game_over" = _
          rw [List.count_append, hc1]
      have hkc : (j :: rest).countP (hitBase s.arena) =
          rest.countP (hitBase s.arena) + 1 := by
        rw [List.countP_cons, hhb]
        simp
      refine ⟨?_, ?_, ?_⟩
      · rw [ih1, hlives', hcnt, hkc]
        push_cast
        ring
      · rw [ih2, hgo', hlives', hcnt, hkc]
        cases hgo : s.game_over
        · simp only [hgo, Bool.false_eq_true, false_or]
          push_cast
          simp only [true_and]
          omega
        · simp [hgo]
      · rw [ih3]
        by_cases hgo : s.game_over = true
        · have hsgo : (baseHitStep s j).game_over = true :=
            hgo'.mpr (Or.inl hgo)
          have e1 : (if s.game_over = false ∧ s.lives ≤ 1 then 1 else 0) = 0 :=
            if_neg (by simp [hgo])
          have e2 : (if (baseHitStep s j).game_over = false ∧
              1 ≤ rest.countP (hitBase (baseHitStep s j).arena) ∧
              (baseHitStep s j).lives ≤
                (rest.countP (hitBase (baseHitStep s j).arena) : ℤ)
              then 1 else 0) = 0 :=
            if_neg (by simp [hsgo])
          have e3 : (if s.game_over = false ∧
              1 ≤ (j :: rest).countP (hitBase s.arena) ∧
              s.lives ≤ ((j :: rest).countP (hitBase s.arena) : ℤ)
              then 1 else 0) = 0 :=
            if_neg (by simp [hgo])
          rw [e2, hev', e1, e3]
        · have hgoF2 : s.game_over = false := by
            cases hb : s.game_over
            · rfl
            · exact absurd hb hgo
          by_cases hl : s.lives ≤ 1
          · have hsgo : (baseHitStep s j).game_over = true :=
              hgo'.mpr (Or.inr hl)
            have e1 : (if s.game_over = false ∧ s.lives ≤ 1 then 1 else 0) = 1 :=
              if_pos ⟨hgoF2, hl⟩
            have e2 : (if (baseHitStep s j).game_over = false ∧
                1 ≤ rest.countP (hitBase (baseHitStep s j).arena) ∧
                (baseHitStep s j).lives ≤
                  (rest.countP (hitBase (baseHitStep s j).arena) : ℤ)
                then 1 else 0) = 0 :=
              if_neg (by simp [hsgo])
            have e3 : (if s.game_over = false ∧
                1 ≤ (j :: rest).countP (hitBase s.arena) ∧
                s.lives ≤ ((j :: rest).countP (hitBase s.arena) : ℤ)
                then 1 else 0) = 1 :=
              if_pos ⟨hgoF2, by rw [hkc]; omega, by rw [hkc]; push_cast; omega⟩
            rw [e2, hev', e1, e3]
          · have hsgo : (baseHitStep s j).game_over = false := by
              cases hb : (baseHitStep s j).game_over
              · rfl
              · rcases hgo'.mp hb with h | h
                · exact absurd h hgo
                · exact absurd h hl
            have e1 : (if s.game_over = false ∧ s.lives ≤ 1 then 1 else 0) = 0 :=
              if_neg (fun hcon => hl hcon.2)
            by_cases hlk : s.lives ≤ (rest.countP (hitBase s.arena) : ℤ) + 1
            · have e2 : (if (baseHitStep s j).game_over = false ∧
                  1 ≤ rest.countP (hitBase (baseHitStep s j).arena) ∧
                  (baseHitStep s j).lives ≤
                    (rest.countP (hitBase (baseHitStep s j).arena) : ℤ)
                  then 1 else 0) = 1 :=
                if_pos ⟨hsgo, by rw [hcnt]; omega,
                  by rw [hcnt, hlives']; push_cast; omega⟩
              have e3 : (if s.game_over = false ∧
                  1 ≤ (j :: rest).countP (hitBase s.arena) ∧
                  s.lives ≤ ((j :: rest).countP (hitBase s.arena) : ℤ)
                  then 1 else 0) = 1 :=
                if_pos ⟨hgoF2, by rw [hkc]; omega, by rw [hkc]; push_cast; omega⟩
              rw [e2, hev', e1, e3]
            · have e2 : (if (baseHitStep s j).game_over = false ∧
                  1 ≤ rest.countP (hitBase (baseHitStep s j).arena) ∧
                  (baseHitStep s j).lives ≤
                    (rest.countP (hitBase (baseHitStep s j).arena) : ℤ)
                  then 1 else 0) = 0 := by
                refine if_neg (fun hcon => hlk ?_)
                have h2 := hcon.2.2
                rw [hcnt, hlives'] at h2
                omega
              have e3 : (if s.game_over = false ∧
                  1 ≤ (j :: rest).countP (hitBase s.arena) ∧
                  s.lives ≤ ((j :: rest).countP (hitBase s.arena) : ℤ)
                  then 1 else 0) = 0 := by
                refine if_neg (fun hcon => hlk ?_)
                have h2 := hcon.2.2
                rw [hkc] at h2
                push_cast at h2
                omega
              rw [e2, hev', e1, e3]

/-- C10.  When `k ≥ 2` live listed targets lie within the base radius in one
tick, the base-collision loop decrements lives `k` times with no lower clamp
(so lives can go negative), sets `game_over` exactly when the run of
decrements reaches zero or below, and emits the game-over sound at most once
— on that first transition. -/
theorem simultaneous_base_hits (s : GameState)
    (halive : s.targets.all (fun j => aliveAt s.arena j) = true)
    (hk2 : 2 ≤ s.targets.countP (hitBase s.arena)) :
    (basePhase s).lives = s.lives - (s.targets.countP (hitBase s.arena) : ℤ) ∧
    ((basePhase s).game_over = true ↔
      (s.game_over = true ∨ s.lives ≤ (s.targets.countP (hitBase s.arena) : ℤ))) ∧
    ((basePhase s).events.count "game_over" =
      s.events.count "game_over" +
        (if s.game_over = false ∧ s.lives ≤ (s.targets.countP (hitBase s.arena) : ℤ)
         then 1 else 0)) := by
  unfold basePhase
  obtain ⟨h1, h2, h3⟩ := basePhase_fold s.targets s
  refine ⟨h1, ?_, ?_⟩
  · rw [h2]
    constructor
    · intro h
      rcases h with h | ⟨_, h⟩
      · exact Or.inl h
      · exact Or.inr h
    · intro h
      rcases h with h | h
      · exact Or.inl h
      · exact Or.inr ⟨by omega, h⟩
  · rw [h3]
    have hc : (s.game_over = false ∧ 1 ≤ s.targets.countP (hitBase s.arena) ∧
        s.lives ≤ (s.targets.countP (hitBase s.arena) : ℤ)) ↔
        (s.game_over = false ∧
          s.lives ≤ (s.targets.countP (hitBase s.arena) : ℤ)) := by
      constructor
      · intro h
        exact ⟨h.1, h.2.2⟩
      · intro h
        exact ⟨h.1, by omega, h.2⟩
    rw [if_congr hc rfl rfl]

/-- A live target sitting on the base, duplicated for the C10 witness. -/
def tgtC10 : Target := ⟨BASE_POSITION, ⟨0, 0⟩, TType.drone, 0, true⟩

/-- One life left, two live targets inside the base radius. -/
def stateC10 : GameState :=
  { baseState with arena := [tgtC10, tgtC10], targets := [0, 1], lives := 1 }

/-- Witness for C10: two simultaneous base hits at one life leave lives at
−1, set game-over, and emit the game-over sound exactly once. -/
theorem simultaneous_base_hits_witness :
    stateC10.targets.countP (hitBase stateC10.arena) = 2 ∧
    (basePhase stateC10).lives = -1 ∧
    (basePhase stateC10).game_over = true ∧
    (basePhase stateC10).events.count "game_over" = 1 := by
  have h0 : hitBase stateC10.arena 0 = true := by
    unfold hitBase
    rw [show stateC10.arena[0]? = some tgtC10 from rfl]
    exact decide_eq_true (by
      norm_num [tgtC10, Vec2.distSq, Vec2.sub_def, Vec2.lengthSq, BASE_RADIUS])
  have h1 : hitBase stateC10.arena 1 = true := by
    unfold hitBase
    rw [show stateC10.arena[1]? = some tgtC10 from rfl]
    exact decide_eq_true (by
      norm_num [tgtC10, Vec2.distSq, Vec2.sub_def, Vec2.lengthSq, BASE_RADIUS])
  have hcnt : stateC10.targets.countP (hitBase stateC10.arena) = 2 := by
    show List.countP (hitBase stateC10.arena) [0, 1] = 2
    rw [List.countP_cons, List.countP_cons, List.countP_nil, h0, h1]
    norm_num
  obtain ⟨g1, g2, g3⟩ := simultaneous_base_hits stateC10 rfl (by rw [hcnt])
  refine ⟨hcnt, ?_, ?_, ?_⟩
  · rw [g1, hcnt]
    norm_num [stateC10, baseState]
  · exact g2.mpr (Or.inr (by rw [hcnt]; norm_num [stateC10, baseState]))
  · rw [g3, hcnt]
    rw [if_pos ⟨rfl, by norm_num [stateC10, baseState]⟩]
    norm_num [stateC10, baseState]

/-! ## C1: projectile impact and base impact in the same tick -/

theorem escapePhase_score (x : GameState) : (escapePhase x).score = x.score :=
  foldl_proj escapeStep (fun st => st.score)
    (fun st a => (escapeStep_preserves st a).2.2.2.1) x.targets x

theorem escapePhase_lives (x : GameState) : (escapePhase x).lives = x.lives :=
  foldl_proj escapeStep (fun st => st.lives)
    (fun st a => (escapeStep_preserves st a).2.2.2.2.1) x.targets x

theorem basePhase_score (x : GameState) : (basePhase x).score = x.score :=
  foldl_proj baseHitStep (fun st => st.score)
    (fun st a => (baseHitStep_preserves st a).2.2.2.1) x.targets x

/-- One tick over a single zero-velocity missile sitting on its single
zero-velocity live target, itself within the base radius: the projectile
impact scores the kill, and the base-collision loop — which does not check
`alive` — still decrements lives for the same (now dead) target. -/
theorem hit_and_base_compute (dt : ℝ) (s : GameState) (j : ℕ)
    (m : Missile) (t : Target)
    (hlc : s.level_complete = false)
    (hmiss : s.missiles = [m]) (hact : m.active = true) (htg : m.target = some j)
    (ht : s.arena[j]? = some t) (halive : t.alive = true)
    (hmv : m.velocity = Vec2.mk 0 0) (htv : t.velocity = Vec2.mk 0 0)
    (hpos : m.position = t.position) (htargets : s.targets = [j])
    (hbase : Vec2.distSq t.position BASE_POSITION < BASE_RADIUS * BASE_RADIUS)
    (hcnt : s.targets_destroyed + 1 < LEVEL_TARGET_COUNT) :
    (GameState.update_entities dt s).score =
      s.score + typeScore t.target_type * s.score_multiplier ∧
    (GameState.update_entities dt s).lives = s.lives - 1 := by
  have hjlen : j < s.arena.length := getElem?_some_lt ht
  have htU : Target.update dt t = { t with heading := headingOf t.velocity } := by
    unfold Target.update
    rw [if_neg (by simp [halive])]
    rw [htv, Vec2.zero_hmul, Vec2.add_zero']
  have hA : updateTargetsPhase dt s =
      { s with arena := s.arena.set j (Target.update dt t) } := by
    unfold updateTargetsPhase
    rw [htargets]
    simp only [List.foldl_cons, List.foldl_nil]
    rw [ht]
  have harena1 : (s.arena.set j (Target.update dt t))[j]? =
      some (Target.update dt t) :=
    List.getElem?_set_self hjlen
  have hd0 : (Target.update dt t).position - m.position = Vec2.mk 0 0 := by
    rw [htU, hpos]
    exact Vec2.sub_self' t.position
  have hmU : Missile.update (s.arena.set j (Target.update dt t)) dt m = m := by
    unfold Missile.update
    rw [if_neg (by simp [hact])]
    rw [htg]
    try dsimp only
    rw [harena1]
    try dsimp only
    rw [if_neg (by rw [htU]; simp [halive])]
    try dsimp only
    rw [if_neg (by rw [hd0, Vec2.lengthSq_zero]; norm_num)]
    rw [hmv, Vec2.zero_hmul, Vec2.add_zero', ← hmv]
  have hB : updateMissilesPhase dt
      { s with arena := s.arena.set j (Target.update dt t) } =
      { s with arena := s.arena.set j (Target.update dt t), missiles := [m] } := by
    unfold updateMissilesPhase
    dsimp only
    rw [hmiss]
    simp only [List.map_cons, List.map_nil]
    rw [hmU]
  set s3 : GameState :=
    { s with arena := s.arena.set j (Target.update dt t), missiles := [m],
             cars := s.cars.map
               (fun c => { c with cool_down := max 0 (c.cool_down - dt) }) }
    with hs3def
  have hC : cooldownPhase dt (updateMissilesPhase dt (updateTargetsPhase dt s)) = s3 := by
    rw [hA, hB]
    rfl
  have hs3m : s3.missiles[0]? = some m := rfl
  have hs3t : s3.arena[j]? = some (Target.update dt t) := harena1
  have htUalive : (Target.update dt t).alive = true := by
    rw [htU]
    exact halive
  have hdist : Vec2.distSq m.position (Target.update dt t).position <
      HIT_RADIUS * HIT_RADIUS := by
    rw [htU]
    show Vec2.distSq m.position t.position < _
    rw [hpos, Vec2.distSq_self]
    norm_num [HIT_RADIUS]
  have hkill := missileHitStep_kill s3 0 j m (Target.update dt t)
    hlc hs3m hact htg hs3t htUalive hdist
  rw [if_neg (show ¬(LEVEL_TARGET_COUNT ≤ s.targets_destroyed + 1) from
    not_le.mpr hcnt)] at hkill
  have hhit : hitPhase s3 = missileHitStep s3 0 := by
    unfold hitPhase
    show (List.range (List.length [m])).foldl missileHitStep s3 = _
    rw [show List.range (List.length [m]) = [0] from rfl]
    simp only [List.foldl_cons, List.foldl_nil]
  have hscore : (GameState.update_entities dt s).score =
      (missileHitStep s3 0).score := by
    show (purgePhase (clearSelPhase (escapePhase (basePhase (hitPhase
      (cooldownPhase dt (updateMissilesPhase dt
        (updateTargetsPhase dt s)))))))).score = _
    rw [hC, hhit]
    rw [show ∀ x : GameState, (purgePhase x).score = x.score from fun _ => rfl]
    rw [show ∀ x : GameState, (clearSelPhase x).score = x.score from fun _ => rfl]
    rw [escapePhase_score, basePhase_score]
  have hscoreK : (missileHitStep s3 0).score =
      s.score + typeScore t.target_type * s.score_multiplier := by
    rw [hkill]
    show s3.score + typeScore (Target.update dt t).target_type *
      s3.score_multiplier = _
    rw [htU]
  have hlivesChain : (GameState.update_entities dt s).lives =
      (basePhase (missileHitStep s3 0)).lives := by
    show (purgePhase (clearSelPhase (escapePhase (basePhase (hitPhase
      (cooldownPhase dt (updateMissilesPhase dt
        (updateTargetsPhase dt s)))))))).lives = _
    rw [hC, hhit]
    rw [show ∀ x : GameState, (purgePhase x).lives = x.lives from fun _ => rfl]
    rw [show ∀ x : GameState, (clearSelPhase x).lives = x.lives from fun _ => rfl]
    rw [escapePhase_lives]
  have hKt : (missileHitStep s3 0).targets = [j] := by
    rw [hkill]
    exact htargets
  have hKarena : (missileHitStep s3 0).arena[j]? =
      some { (Target.update dt t) with alive := false } := by
    rw [hkill]
    show ((s.arena.set j (Target.update dt t)).set j _)[j]? = _
    exact List.getElem?_set_self (by rw [List.length_set]; exact hjlen)
  have hhbK : hitBase (missileHitStep s3 0).arena j = true := by
    unfold hitBase
    rw [hKarena]
    refine decide_eq_true ?_
    show Vec2.distSq (Target.update dt t).position BASE_POSITION < _
    rw [htU]
    exact hbase
  have hKcount : (missileHitStep s3 0).targets.countP
      (hitBase (missileHitStep s3 0).arena) = 1 := by
    rw [hKt, List.countP_cons, List.countP_nil, hhbK]
    norm_num
  obtain ⟨f1, _, _⟩ :=
    basePhase_fold (missileHitStep s3 0).targets (missileHitStep s3 0)
  have hKlives : (missileHitStep s3 0).lives = s.lives :=
    (missileHitStep_preserves s3 0).2.2.2.2.1
  constructor
  · rw [hscore, hscoreK]
  · rw [hlivesChain]
    show ((missileHitStep s3 0).targets.foldl baseHitStep
      (missileHitStep s3 0)).lives = s.lives - 1
    rw [f1, hKcount, hKlives]
    norm_num

/-- The missile of the C1 scenario, sitting on the target at the base. -/
def mslC1 : Missile := ⟨BASE_POSITION, ⟨0, 0⟩, 1, some 0, true⟩

/-- One live target on the base, one missile on top of it. -/
def stateC1 : GameState :=
  { baseState with arena := [tgtC10], targets := [0], missiles := [mslC1] }

/-- Counterexample for C1: in a single tick the projectile kill awards the
score (75) and the base-impact loop still decrements lives (5 → 4) for the
same already-dead target — the loop does not filter on `alive`
(src/main.py lines 518–526). -/
theorem projectile_kill_then_base_decrement_cex :
    (GameState.update_entities 1 stateC1).score = 75 ∧
    (GameState.update_entities 1 stateC1).lives = 4 ∧
    ¬ ((GameState.update_entities 1 stateC1).lives = stateC1.lives) := by
  obtain ⟨h1, h2⟩ := hit_and_base_compute 1 stateC1 0 mslC1 tgtC10
    rfl rfl rfl rfl rfl rfl rfl rfl rfl rfl
    (by norm_num [tgtC10, Vec2.distSq, Vec2.sub_def, Vec2.lengthSq, BASE_RADIUS,
      BASE_POSITION])
    (by norm_num [stateC1, baseState, LEVEL_TARGET_COUNT])
  refine ⟨?_, ?_, ?_⟩
  · rw [h1]
    norm_num [stateC1, baseState, tgtC10, typeScore]
  · rw [h2]
    norm_num [stateC1, baseState]
  · rw [h2]
    norm_num [stateC1, baseState]

/-- C1 (amended).  For a Target hit by a projectile and lying within the base
radius in the same tick, the projectile-impact check runs first and awards
the kill's score, but the subsequent base-impact check does **not** filter on
`alive`, so it decrements lives for the already-dead Target as well. -/
theorem projectile_kill_and_base_decrement (dt : ℝ) (s : GameState) (j : ℕ)
    (m : Missile) (t : Target)
    (hlc : s.level_complete = false)
    (hmiss : s.missiles = [m]) (hact : m.active = true) (htg : m.target = some j)
    (ht : s.arena[j]? = some t) (halive : t.alive = true)
    (hmv : m.velocity = Vec2.mk 0 0) (htv : t.velocity = Vec2.mk 0 0)
    (hpos : m.position = t.position) (htargets : s.targets = [j])
    (hbase : Vec2.distSq t.position BASE_POSITION < BASE_RADIUS * BASE_RADIUS)
    (hcnt : s.targets_destroyed + 1 < LEVEL_TARGET_COUNT) :
    (GameState.update_entities dt s).score =
      s.score + typeScore t.target_type * s.score_multiplier ∧
    (GameState.update_entities dt s).lives = s.lives - 1 :=
  hit_and_base_compute dt s j m t hlc hmiss hact htg ht halive hmv htv hpos
    htargets hbase hcnt

/-- Witness for the amended C1 at the concrete colocated scenario. -/
theorem projectile_kill_and_base_decrement_witness :
    (GameState.update_entities 1 stateC1).score =
      stateC1.score + typeScore tgtC10.target_type * stateC1.score_multiplier ∧
    (GameState.update_entities 1 stateC1).lives = stateC1.lives - 1 :=
  projectile_kill_and_base_decrement 1 stateC1 0 mslC1 tgtC10
    rfl rfl rfl rfl rfl rfl rfl rfl rfl rfl
    (by norm_num [tgtC10, Vec2.distSq, Vec2.sub_def, Vec2.lengthSq, BASE_RADIUS,
      BASE_POSITION])
    (by norm_num [stateC1, baseState, LEVEL_TARGET_COUNT])

/-- A target and a launcher at the same point, launcher ready: the concrete
input for the fire-control witness. -/
def tgtC3 : Target := ⟨⟨100, 100⟩, ⟨0, 0⟩, TType.drone, 0, true⟩

/-- The ready launcher of the fire-control witness. -/
def carC3 : SupportCar := ⟨⟨100, 100⟩, 1, 0⟩

/-- Session state for the fire-control witness. -/
def stateC3 : GameState :=
  { baseState with arena := [tgtC3], targets := [0], cars := [carC3],
                   selected_target := some 0 }

/-- Witness for C3: with all preconditions satisfied the fire command appends
one projectile and recharges the launcher. -/
theorem command_car_fire_control_witness :
    GameState.command_car 1 stateC3 =
      { stateC3 with
        missiles := stateC3.missiles ++
          [⟨carC3.position,
            (if (tgtC3.position - carC3.position).lengthSq = 0 then Vec2.mk 1 0
             else tgtC3.position - carC3.position).normalize * MISSILE_SPEED,
            1, some 0, true⟩],
        cars := stateC3.cars.set 0 { carC3 with cool_down := 1.8 },
        events := stateC3.events ++ ["shot"] } := by
  have h := (command_car_fire_control stateC3 1 0 tgtC3 carC3).2.2.2.2.2
  exact h rfl rfl rfl rfl (by norm_num) (by norm_num [stateC3, baseState]) rfl le_rfl

end
